import Mathlib

/-!
Shallow embedding of the agent_link protocol translation and routing engine,
covering src/agent_link/a2a.py (envelope model, sender resolution) and
src/agent_link/node.py (normalizer, topic router, dispatch engine).

Modeling conventions:
- Python dicts are ordered association lists with unique keys (jobj).
- Python None and JSON null are both modeled as JVal.null, matching the
  conflation performed by dict.get.
- Numbers are modeled as integers; no verified claim depends on fractional
  arithmetic (timestamps are passed through opaquely).
- Fallible code (raise ValueError and friends) returns Except String.
- Fresh uuid4 values are drawn from an explicit supply function.
-/

/-- JSON-like runtime values exchanged on the wire. -/
inductive JVal where
  | null : JVal
  | jbool : Bool → JVal
  | jint : Int → JVal
  | jstr : String → JVal
  | jarr : List JVal → JVal
  | jobj : List (String × JVal) → JVal

/-- dict.get: first binding of a key in an association list. -/
def jget : List (String × JVal) → String → Option JVal
  | [], _ => none
  | (k, v) :: rest, key => if k = key then some v else jget rest key

/-- dict.get with the Python None result for a missing key. -/
def jgetD (kvs : List (String × JVal)) (key : String) : JVal :=
  (jget kvs key).getD JVal.null

/-- Python dict assignment d at key becomes v: updates the value in place if
the key exists, appends the binding otherwise. -/
def updAssoc : List (String × JVal) → String → JVal → List (String × JVal)
  | [], key, v => [(key, v)]
  | (k, w) :: rest, key, v =>
    if k = key then (k, v) :: rest else (k, w) :: updAssoc rest key v

/-- Python dict union built by successive assignment, as in a dict literal
with a splat. -/
def dictUnion (base upd : List (String × JVal)) : List (String × JVal) :=
  upd.foldl (fun acc kv => updAssoc acc kv.1 kv.2) base

/-- Python truthiness of a runtime value. -/
def truthy : JVal → Bool
  | .null => false
  | .jbool b => b
  | .jint n => n != 0
  | .jstr s => s != ""
  | .jarr xs => !xs.isEmpty
  | .jobj kvs => !kvs.isEmpty

/-- Python or between two runtime values. -/
def pyOr (a b : JVal) : JVal := if truthy a then a else b

/-- Rendering used for f-string interpolation. Faithful for the scalar
values that the verified claims interpolate into topics; container
rendering is abbreviated and is exercised by no claim. -/
def pyStr : JVal → String
  | .jstr s => s
  | .jint n => toString n
  | .jbool true => "True"
  | .jbool false => "False"
  | .null => "None"
  | .jarr _ => "<list>"
  | .jobj _ => "<dict>"

/-- The ASCII whitespace set stripped by Python str.strip; the wider
unicode set is exercised by no claim. -/
def pyIsSpace (c : Char) : Bool :=
  c == ' ' || c == '\t' || c == '\n' || c == '\r' || c == '\x0b' || c == '\x0c'

/-- Python str.strip: drop whitespace from both ends, computably over the
character list of the string. -/
def strTrim (s : String) : String :=
  String.mk (((s.data.dropWhile pyIsSpace).reverse.dropWhile pyIsSpace).reverse)

/-- Python str.startswith, computably over the character lists. -/
def strStartsWith (s pre : String) : Bool :=
  pre.data.isPrefixOf s.data

/-- A2A message roles, a validated two-value enum. -/
inductive A2ARole where
  | user : A2ARole
  | agent : A2ARole
deriving DecidableEq, Repr

def A2ARole.toStr : A2ARole → String
  | .user => "user"
  | .agent => "agent"

/-- A2APart from a2a.py: kind, spread data mapping, optional metadata. -/
structure A2APart where
  kind : String
  data : List (String × JVal) := []
  metadata : Option (List (String × JVal)) := none

/-- A2APart.to_dict: the dict literal with kind, a splat of data, then a
conditional (truthiness-gated) metadata assignment. -/
def A2APart.to_dict (p : A2APart) : List (String × JVal) :=
  let part := dictUnion [("kind", JVal.jstr p.kind)] p.data
  match p.metadata with
  | some md => if md.isEmpty then part else updAssoc part "metadata" (.jobj md)
  | none => part

/-- A2APart.from_dict: requires a mapping with a string kind; metadata kept
only when a mapping; every other key goes to data. -/
def A2APart.from_dict (value : JVal) : Except String A2APart :=
  match value with
  | .jobj kvs =>
    match jget kvs "kind" with
    | some (.jstr kind) =>
      let metadata := match jget kvs "metadata" with
        | some (.jobj md) => some md
        | _ => none
      let payload := kvs.filter (fun kv => kv.1 != "kind" && kv.1 != "metadata")
      .ok { kind := kind, data := payload, metadata := metadata }
    | _ => .error "A2A part requires a string kind field"
  | _ => .error "A2A part must be a dictionary"

/-- A2APart.text: data at key text when it is a string. -/
def A2APart.text (p : A2APart) : Option String :=
  match jget p.data "text" with
  | some (.jstr s) => some s
  | _ => none

/-- create_text_part from a2a.py. -/
def create_text_part (text : String) (metadata : Option (List (String × JVal)) := none) : A2APart :=
  { kind := "text", data := [("text", .jstr text)], metadata := metadata }

/-- A2AMessage from a2a.py. The kind field is annotated str but never
validated at runtime, so it is modeled as a runtime value; extensions and
referenceTaskIds element types are likewise unvalidated by from_dict. -/
structure A2AMessage where
  role : A2ARole
  parts : List A2APart
  message_id : String
  kind : JVal := .jstr "message"
  metadata : Option (List (String × JVal)) := none
  extensions : Option (List JVal) := none
  reference_task_ids : Option (List JVal) := none
  task_id : Option String := none
  context_id : Option String := none

/-- A2AMessage.to_dict: base dict literal followed by truthiness-gated
assignments for the optional fields. -/
def A2AMessage.to_dict (m : A2AMessage) : List (String × JVal) :=
  let payload : List (String × JVal) :=
    [("role", .jstr m.role.toStr),
     ("parts", .jarr (m.parts.map (fun p => .jobj p.to_dict))),
     ("messageId", .jstr m.message_id),
     ("kind", m.kind)]
  let payload := match m.metadata with
    | some md => if md.isEmpty then payload else updAssoc payload "metadata" (.jobj md)
    | none => payload
  let payload := match m.extensions with
    | some xs => if xs.isEmpty then payload else updAssoc payload "extensions" (.jarr xs)
    | none => payload
  let payload := match m.reference_task_ids with
    | some xs => if xs.isEmpty then payload else updAssoc payload "referenceTaskIds" (.jarr xs)
    | none => payload
  let payload := match m.task_id with
    | some t => if t = "" then payload else updAssoc payload "taskId" (.jstr t)
    | none => payload
  match m.context_id with
  | some c => if c = "" then payload else updAssoc payload "contextId" (.jstr c)
  | none => payload

/-- A2AMessage.from_dict: validates role, non-empty parts and a string
messageId (resolved through the message_id alias with Python or); the
optional fields degrade silently. -/
def A2AMessage.from_dict (value : JVal) : Except String A2AMessage :=
  match value with
  | .jobj kvs =>
    let roleOpt : Option A2ARole :=
      match jget kvs "role" with
      | some (.jstr "user") => some .user
      | some (.jstr "agent") => some .agent
      | _ => none
    match roleOpt with
    | none => .error "A2A message role must be user or agent"
    | some role =>
      match jget kvs "parts" with
      | some (.jarr partsValue) =>
        if partsValue.isEmpty then
          .error "A2A message requires a non-empty parts list"
        else
          match partsValue.mapM A2APart.from_dict with
          | .error e => .error e
          | .ok parts =>
            match pyOr (jgetD kvs "messageId") (jgetD kvs "message_id") with
            | .jstr message_id =>
              let metadata := match jget kvs "metadata" with
                | some (.jobj md) => some md
                | _ => none
              let extensions := match jget kvs "extensions" with
                | some (.jarr xs) => some xs
                | _ => none
              let reference_task_ids := match jget kvs "referenceTaskIds" with
                | some (.jarr xs) => some xs
                | _ => none
              let task_id := match pyOr (jgetD kvs "taskId") (jgetD kvs "task_id") with
                | .jstr t => some t
                | _ => none
              let context_id := match pyOr (jgetD kvs "contextId") (jgetD kvs "context_id") with
                | .jstr c => some c
                | _ => none
              let kind := match jget kvs "kind" with
                | some v => v
                | none => .jstr "message"
              .ok { role := role, parts := parts, message_id := message_id,
                    kind := kind, metadata := metadata,
                    extensions := (match extensions with
                      | some xs => if xs.isEmpty then none else some xs
                      | none => none),
                    reference_task_ids := (match reference_task_ids with
                      | some xs => if xs.isEmpty then none else some xs
                      | none => none),
                    task_id := task_id, context_id := context_id }
            | _ => .error "A2A message requires a string messageId"
      | _ => .error "A2A message requires a non-empty parts list"
  | _ => .error "A2A message must be a dictionary"

/-- A2AMessage.primary_text: text of the first part exposing one. -/
def A2AMessage.primary_text (m : A2AMessage) : Option String :=
  m.parts.findSome? A2APart.text

-- A2AMessage.with_updates via dataclasses.replace is plain field update on
-- the immutable record; call sites below update fields directly.

/-- MessageSendConfiguration from a2a.py. The acceptedOutputModes element
type is annotated str but never validated, so elements are runtime values. -/
structure MessageSendConfiguration where
  accepted_output_modes : Option (List JVal) := none
  history_length : Option Int := none
  push_notification_config : Option (List (String × JVal)) := none
  blocking : Option Bool := none

/-- MessageSendConfiguration.to_dict: truthiness-gated emission for the two
container fields, is-not-None emission for historyLength and blocking. -/
def MessageSendConfiguration.to_dict (c : MessageSendConfiguration) : List (String × JVal) :=
  let payload : List (String × JVal) := []
  let payload := match c.accepted_output_modes with
    | some xs => if xs.isEmpty then payload else updAssoc payload "acceptedOutputModes" (.jarr xs)
    | none => payload
  let payload := match c.history_length with
    | some n => updAssoc payload "historyLength" (.jint n)
    | none => payload
  let payload := match c.push_notification_config with
    | some cfg => if cfg.isEmpty then payload else updAssoc payload "pushNotificationConfig" (.jobj cfg)
    | none => payload
  match c.blocking with
  | some b => updAssoc payload "blocking" (.jbool b)
  | none => payload

/-- MessageSendConfiguration.from_dict. Python booleans are integers, so a
boolean historyLength passes the isinstance int check; it is modeled by its
integer value (no verified claim exercises that corner). -/
def MessageSendConfiguration.from_dict (value : JVal) : Except String MessageSendConfiguration :=
  match value with
  | .jobj kvs =>
    let accepted_output_modes := match jget kvs "acceptedOutputModes" with
      | some (.jarr xs) => some xs
      | _ => none
    let historyRaw := jgetD kvs "historyLength"
    match historyRaw with
    | .null =>
      let push_notification_config := match jget kvs "pushNotificationConfig" with
        | some (.jobj cfg) => some cfg
        | _ => none
      match jgetD kvs "blocking" with
      | .null => .ok { accepted_output_modes := accepted_output_modes,
                       history_length := none,
                       push_notification_config := push_notification_config,
                       blocking := none }
      | .jbool b => .ok { accepted_output_modes := accepted_output_modes,
                          history_length := none,
                          push_notification_config := push_notification_config,
                          blocking := some b }
      | _ => .error "blocking must be a boolean if provided"
    | .jint n =>
      let push_notification_config := match jget kvs "pushNotificationConfig" with
        | some (.jobj cfg) => some cfg
        | _ => none
      match jgetD kvs "blocking" with
      | .null => .ok { accepted_output_modes := accepted_output_modes,
                       history_length := some n,
                       push_notification_config := push_notification_config,
                       blocking := none }
      | .jbool b => .ok { accepted_output_modes := accepted_output_modes,
                          history_length := some n,
                          push_notification_config := push_notification_config,
                          blocking := some b }
      | _ => .error "blocking must be a boolean if provided"
    | .jbool b =>
      let push_notification_config := match jget kvs "pushNotificationConfig" with
        | some (.jobj cfg) => some cfg
        | _ => none
      match jgetD kvs "blocking" with
      | .null => .ok { accepted_output_modes := accepted_output_modes,
                       history_length := some (if b then 1 else 0),
                       push_notification_config := push_notification_config,
                       blocking := none }
      | .jbool b2 => .ok { accepted_output_modes := accepted_output_modes,
                           history_length := some (if b then 1 else 0),
                           push_notification_config := push_notification_config,
                           blocking := some b2 }
      | _ => .error "blocking must be a boolean if provided"
    | _ => .error "historyLength must be an integer if provided"
  | _ => .error "Configuration must be a dictionary"

/-- MessageSendParams from a2a.py. The two metadata mappings are typed; the
request-level metadata is validated as a mapping by the caller. -/
structure MessageSendParams where
  message : A2AMessage
  configuration : Option MessageSendConfiguration := none
  metadata : Option (List (String × JVal)) := none

/-- MessageSendParams.to_dict. A present configuration object is always
truthy in Python, so it is emitted whenever present; metadata emission is
truthiness-gated. -/
def MessageSendParams.to_dict (p : MessageSendParams) : List (String × JVal) :=
  let payload : List (String × JVal) := [("message", .jobj p.message.to_dict)]
  let payload := match p.configuration with
    | some c => updAssoc payload "configuration" (.jobj c.to_dict)
    | none => payload
  match p.metadata with
  | some md => if md.isEmpty then payload else updAssoc payload "metadata" (.jobj md)
  | none => payload

/-- MessageSendParams.from_dict: requires a message mapping; a configuration
parse failure propagates (it is not wrapped in a try here). -/
def MessageSendParams.from_dict (value : JVal) : Except String MessageSendParams :=
  match value with
  | .jobj kvs =>
    match jget kvs "message" with
    | some (.jobj messageKvs) =>
      match A2AMessage.from_dict (.jobj messageKvs) with
      | .error e => .error e
      | .ok message =>
        match jget kvs "configuration" with
        | some (.jobj cfgKvs) =>
          match MessageSendConfiguration.from_dict (.jobj cfgKvs) with
          | .error e => .error e
          | .ok cfg =>
            let metadata := match jget kvs "metadata" with
              | some (.jobj md) => some md
              | _ => none
            .ok { message := message, configuration := some cfg, metadata := metadata }
        | _ =>
          let metadata := match jget kvs "metadata" with
            | some (.jobj md) => some md
            | _ => none
          .ok { message := message, configuration := none, metadata := metadata }
    | _ => .error "Parameters must include a message dictionary"
  | _ => .error "Parameters must be a dictionary"

/-- SendMessageRequest from a2a.py: a JSON-RPC message send request. The id
is annotated str or int and is kept as a runtime value. -/
structure SendMessageRequest where
  id : JVal
  params : MessageSendParams
  method : String := "message/send"
  jsonrpc : String := "2.0"

/-- SendMessageRequest.to_dict. -/
def SendMessageRequest.to_dict (r : SendMessageRequest) : List (String × JVal) :=
  [("jsonrpc", .jstr r.jsonrpc),
   ("id", r.id),
   ("method", .jstr r.method),
   ("params", .jobj r.params.to_dict)]

/-- A2AEnvelope from a2a.py: the generic JSON-RPC container. The id, method
and result fields are unvalidated at parse time and kept as runtime values;
an absent field and a JSON null are both Python None. -/
structure A2AEnvelope where
  jsonrpc : String
  id : Option JVal := none
  method : Option JVal := none
  params : Option MessageSendParams := none
  result : Option JVal := none
  error : Option (List (String × JVal)) := none
  raw : List (String × JVal) := []

/-- A2AEnvelope.is_request: a method field is present. -/
def A2AEnvelope.is_request (e : A2AEnvelope) : Bool :=
  e.method.isSome

/-- A2AEnvelope.message: the params message when params are present (a
params object is always truthy), else a best-effort parse of a mapping
result, absent on parse failure. -/
def A2AEnvelope.message (e : A2AEnvelope) : Option A2AMessage :=
  match e.params with
  | some p => some p.message
  | none =>
    match e.result with
    | some (.jobj kvs) =>
      match A2AMessage.from_dict (.jobj kvs) with
      | .ok m => some m
      | .error _ => none
    | _ => none

/-- A2AEnvelope.to_dict: id, result and error are emitted when not None;
method, params emission is truthiness-gated (a params object is always
truthy). -/
def A2AEnvelope.to_dict (e : A2AEnvelope) : List (String × JVal) :=
  let payload : List (String × JVal) := [("jsonrpc", .jstr e.jsonrpc)]
  let payload := match e.id with
    | some v => updAssoc payload "id" v
    | none => payload
  let payload := match e.method with
    | some v => if truthy v then updAssoc payload "method" v else payload
    | none => payload
  let payload := match e.params with
    | some p => updAssoc payload "params" (.jobj p.to_dict)
    | none => payload
  let payload := match e.result with
    | some v => updAssoc payload "result" v
    | none => payload
  match e.error with
  | some err => updAssoc payload "error" (.jobj err)
  | none => payload

/-- Strips a JSON null down to Python None for the unvalidated fields read
with dict.get. -/
def jgetOptional (kvs : List (String × JVal)) (key : String) : Option JVal :=
  match jget kvs key with
  | some .null => none
  | some v => some v
  | none => none

/-- A2AEnvelope.from_dict: requires jsonrpc version 2.0; a params parse
failure degrades silently to absent params; raw keeps the whole input. -/
def A2AEnvelope.from_dict (value : JVal) : Except String A2AEnvelope :=
  match value with
  | .jobj kvs =>
    match jget kvs "jsonrpc" with
    | some (.jstr "2.0") =>
      let params := match jget kvs "params" with
        | some (.jobj paramsKvs) =>
          match MessageSendParams.from_dict (.jobj paramsKvs) with
          | .ok p => some p
          | .error _ => none
        | _ => none
      let error := match jget kvs "error" with
        | some (.jobj err) => some err
        | _ => none
      .ok { jsonrpc := "2.0",
            id := jgetOptional kvs "id",
            method := jgetOptional kvs "method",
            params := params,
            result := jgetOptional kvs "result",
            error := error,
            raw := kvs }
    | _ => .error "Unsupported or missing JSON-RPC version"
  | _ => .error "Envelope must be a dictionary"

/-- create_text_message from a2a.py; the fresh uuid4 default for an absent
or falsy message id is supplied explicitly. -/
def create_text_message (text : String) (role : A2ARole) (fresh : String)
    (message_id : Option String := none)
    (metadata : Option (List (String × JVal)) := none)
    (extensions : Option (List JVal) := none)
    (reference_task_ids : Option (List JVal) := none)
    (task_id : Option String := none)
    (context_id : Option String := none) : A2AMessage :=
  { role := role,
    parts := [create_text_part text],
    message_id := (match message_id with
      | some s => if s = "" then fresh else s
      | none => fresh),
    metadata := metadata,
    extensions := (match extensions with
      | some xs => if xs.isEmpty then none else some xs
      | none => none),
    reference_task_ids := (match reference_task_ids with
      | some xs => if xs.isEmpty then none else some xs
      | none => none),
    task_id := task_id,
    context_id := context_id }

/-- create_send_message_request from a2a.py; request_id or uuid4 is Python
or, so a falsy explicit id also falls back to the fresh one. -/
def create_send_message_request (message : A2AMessage) (fresh : String)
    (request_id : JVal := .null)
    (configuration : Option MessageSendConfiguration := none)
    (metadata : Option (List (String × JVal)) := none) : SendMessageRequest :=
  { id := pyOr request_id (.jstr fresh),
    params := { message := message, configuration := configuration, metadata := metadata } }

/-- is_a2a_envelope from a2a.py: a mapping whose jsonrpc field equals 2.0. -/
def is_a2a_envelope (payload : JVal) : Bool :=
  match payload with
  | .jobj kvs =>
    match jget kvs "jsonrpc" with
    | some (.jstr s) => s == "2.0"
    | _ => false
  | _ => false

/-- parse_a2a_envelope from a2a.py: parse when the discriminator matches,
swallowing validation errors. -/
def parse_a2a_envelope (payload : JVal) : Option A2AEnvelope :=
  if is_a2a_envelope payload then
    match A2AEnvelope.from_dict payload with
    | .ok e => some e
    | .error _ => none
  else none

/-- Ordered metadata keys scanned by derive_sender_id_from_message. -/
def senderIdKeys : List String :=
  ["sender_id", "senderId", "agent_id", "agentId", "authorId", "author_id"]

/-- The for-loop of derive_sender_id_from_message: the first key bound to a
string that is non-empty after stripping whitespace wins and is returned
unstripped. -/
def firstSenderKey (md : List (String × JVal)) : List String → Option String
  | [] => none
  | key :: rest =>
    match jget md key with
    | some (.jstr s) => if strTrim s ≠ "" then some s else firstSenderKey md rest
    | _ => firstSenderKey md rest

/-- derive_sender_id_from_message from a2a.py: metadata keys, then a truthy
contextId, then a truthy taskId, then the role-based fallback. -/
def derive_sender_id_from_message (m : A2AMessage) : String :=
  let metadata := m.metadata.getD []
  match firstSenderKey metadata senderIdKeys with
  | some v => v
  | none =>
    match m.context_id with
    | some c =>
      if c ≠ "" then c
      else
        match m.task_id with
        | some t => if t ≠ "" then t else "a2a:" ++ m.role.toStr
        | none => "a2a:" ++ m.role.toStr
    | none =>
      match m.task_id with
      | some t => if t ≠ "" then t else "a2a:" ++ m.role.toStr
      | none => "a2a:" ++ m.role.toStr

/-- Audience of a chat message, from node.py. -/
inductive Audience where
  | everyone : Audience
  | direct : Audience
deriving DecidableEq, Repr

def Audience.value : Audience → String
  | .everyone => "everyone"
  | .direct => "direct"

/-- The Audience enum constructor applied to a string, as an option instead
of a raised ValueError. -/
def audienceOfString (s : String) : Option Audience :=
  if s = "everyone" then some .everyone
  else if s = "direct" then some .direct
  else none

def isNull : JVal → Bool
  | .null => true
  | _ => false

def isStr : JVal → Bool
  | .jstr _ => true
  | _ => false

/-- Python equality of a runtime value against a string constant. -/
def jeqStr : JVal → String → Bool
  | .jstr s, t => s == t
  | _, _ => false

/-- The internal Message dataclass from node.py. The sender, content,
message id, reply id and recipient fields receive unvalidated runtime
values in the normalizer, so they are modeled as runtime values. -/
structure IMessage where
  sender_id : JVal
  content : JVal
  timestamp : JVal
  message_id : JVal
  in_reply_to : JVal := .null
  audience : Audience := .everyone
  recipient_id : JVal := .null
  raw_payload : Option JVal := none
  a2a_envelope : Option A2AEnvelope := none

/-- The AgentNode fields the routing engine reads. -/
structure NodeState where
  room_id : String
  agent_id : String
  respond_to_group : Bool := true
  respond_to_direct : Bool := true
  joined : Bool := false

def group_topic (node : NodeState) : String :=
  "rooms/" ++ node.room_id ++ "/group"

def direct_topic (node : NodeState) : String :=
  "rooms/" ++ node.room_id ++ "/direct/" ++ node.agent_id

/-- The external collaborators of a node: the transport publish call as an
oracle of per-call outcomes, the current wall clock, and the uuid4 supply. -/
structure NodeCtx where
  node : NodeState
  publish : String → JVal → Except String Unit
  now : JVal
  uuid : Nat → String

/-- Topic shape test used by the audience heuristic in node.py. -/
def is_direct_topic (node : NodeState) (topic : String) : Bool :=
  strStartsWith topic ("rooms/" ++ node.room_id ++ "/direct/")

/-- Audience detection of _handle_message: a recognized audience string is
used; an unrecognized string, a non-string or an absent field fall back to
the topic shape heuristic. -/
def detect_audience (node : NodeState) (topic : String) (kvs : List (String × JVal)) : Audience :=
  match jget kvs "audience" with
  | some (.jstr s) =>
    match audienceOfString s with
    | some a => a
    | none => if is_direct_topic node topic then .direct else .everyone
  | _ => if is_direct_topic node topic then .direct else .everyone

/-- Reply metadata keys scanned in the A2A branch of _handle_message. -/
def replyKeys : List String := ["in_reply_to", "inReplyTo", "reply_to", "replyTo"]

/-- The reply-scan loop: the first key bound to any string wins. -/
def firstReplyKey (md : List (String × JVal)) : List String → Option String
  | [] => none
  | key :: rest =>
    match jget md key with
    | some (.jstr s) => some s
    | _ => firstReplyKey md rest

/-- Branch B of _handle_message (legacy chat payloads): requires sender_id
and content keys (a missing key is a caught KeyError), suppresses the
own messages of the node, defaults the message id through a Python or chain. -/
def normalize_legacy (node : NodeState) (kvs : List (String × JVal)) (payload : JVal)
    (audience : Audience) (recipient_id timestamp : JVal) (fresh : String) : Option IMessage :=
  match jget kvs "sender_id" with
  | none => none
  | some senderVal =>
    if jeqStr senderVal node.agent_id then none
    else
      let message_id := pyOr (jgetD kvs "message_id") (pyOr (jgetD kvs "messageId") (.jstr fresh))
      match jget kvs "content" with
      | none => none
      | some content =>
        some { sender_id := senderVal, content := content, timestamp := timestamp,
               message_id := message_id,
               in_reply_to := pyOr (jgetD kvs "in_reply_to") (jgetD kvs "inReplyTo"),
               audience := audience, recipient_id := recipient_id,
               raw_payload := some payload, a2a_envelope := none }

/-- The normalization front half of _handle_message (node.py lines 354 to
427): non-mapping rejection, audience and recipient resolution, timestamp
default, format detection, and the two normalization branches with self
suppression. Total: no exception escapes to the transport callback. -/
def normalize_message (node : NodeState) (topic : String) (payload : JVal)
    (now : JVal) (fresh : String) : Option IMessage :=
  match payload with
  | .jobj kvs =>
    let audience := detect_audience node topic kvs
    let recipient_id : JVal :=
      if audience = .direct then jgetD kvs "recipient_id" else .null
    let recipient_id : JVal :=
      if audience = .direct then
        (if isNull recipient_id then .jstr node.agent_id else recipient_id)
      else recipient_id
    let timestamp : JVal := match jget kvs "timestamp" with
      | some v => v
      | none => now
    match parse_a2a_envelope payload with
    | some env =>
      match env.message with
      | some messageObj =>
        let senderId := derive_sender_id_from_message messageObj
        if senderId = node.agent_id then none
        else
          let content : JVal := match messageObj.primary_text with
            | some s => if s ≠ "" then .jstr s else .jobj messageObj.to_dict
            | none => .jobj messageObj.to_dict
          let metadata := messageObj.metadata.getD []
          let inReplyTo : JVal := match firstReplyKey metadata replyKeys with
            | some s => .jstr s
            | none => .null
          some { sender_id := .jstr senderId, content := content, timestamp := timestamp,
                 message_id := .jstr messageObj.message_id, in_reply_to := inReplyTo,
                 audience := audience, recipient_id := recipient_id,
                 raw_payload := some payload, a2a_envelope := some env }
      | none => normalize_legacy node kvs payload audience recipient_id timestamp fresh
    | none => normalize_legacy node kvs payload audience recipient_id timestamp fresh
  | _ => none

/-- The sender that normalization resolves for a payload, mirroring the
branch selection of _handle_message: the derived A2A sender in branch A,
the sender_id field in branch B, absent for a non-mapping. -/
def resolved_sender (payload : JVal) : Option JVal :=
  match payload with
  | .jobj kvs =>
    match parse_a2a_envelope payload with
    | some env =>
      match env.message with
      | some m => some (.jstr (derive_sender_id_from_message m))
      | none => jget kvs "sender_id"
    | none => jget kvs "sender_id"
  | _ => none

/-- Outcome of one outgoing send operation: the returned value or the
raised error, the publish calls made, and the advanced uuid counter. -/
structure SendOut where
  result : Except String JVal
  pubs : List (String × JVal)
  ctr : Nat

/-- AgentNode.send_message: joined precondition, direct-recipient check,
topic resolution, legacy payload construction, publish with an internal
try that converts a publish failure into a None return. -/
def send_message (ctx : NodeCtx) (ctr : Nat) (content : JVal) (audience : Audience)
    (recipient_id : JVal) (in_reply_to : JVal) : SendOut :=
  if !ctx.node.joined then
    { result := .error "ConnectionError: Not joined to a room", pubs := [], ctr := ctr }
  else if audience = .direct ∧ truthy recipient_id = false then
    { result := .error "ValueError: Recipient ID required for direct messages", pubs := [], ctr := ctr }
  else
    let message_id := ctx.uuid ctr
    let ctr := ctr + 1
    let topic := if audience = .everyone then group_topic ctx.node
                 else "rooms/" ++ ctx.node.room_id ++ "/direct/" ++ pyStr recipient_id
    let message_dict : List (String × JVal) :=
      [("sender_id", .jstr ctx.node.agent_id),
       ("content", content),
       ("timestamp", ctx.now),
       ("message_id", .jstr message_id),
       ("in_reply_to", in_reply_to),
       ("audience", .jstr audience.value),
       ("recipient_id", recipient_id)]
    match ctx.publish topic (.jobj message_dict) with
    | .ok _ => { result := .ok (.jstr message_id), pubs := [(topic, .jobj message_dict)], ctr := ctr }
    | .error _ => { result := .ok .null, pubs := [(topic, .jobj message_dict)], ctr := ctr }

/-- Keyword arguments of AgentNode.send_a2a_request with their defaults.
Fields validated only by isinstance checks are runtime values. -/
structure A2ASendArgs where
  text : Option String := none
  message : Option A2AMessage := none
  parts : Option (List A2APart) := none
  role : String := "user"
  audience : Audience := .direct
  recipient_id : JVal := .null
  configuration : Option MessageSendConfiguration := none
  message_metadata : Option JVal := none
  request_metadata : Option JVal := none
  extensions : Option (List JVal) := none
  reference_task_ids : Option (List JVal) := none
  task_id : Option String := none
  context_id : Option String := none
  request_id : JVal := .null
  message_id : Option String := none

/-- The argument validation and request construction part of
AgentNode.send_a2a_request, before the publish call: returns the request,
the resolved topic and the advanced counter, or the raised error. -/
def send_a2a_request_build (ctx : NodeCtx) (ctr : Nat) (args : A2ASendArgs) :
    Except String (SendMessageRequest × String × Nat) := do
  if !ctx.node.joined then
    throw "ConnectionError: Not joined to a room"
  if args.audience = .direct ∧ truthy args.recipient_id = false then
    throw "ValueError: Recipient ID required for direct A2A messages"
  let messageMetadata : Option (List (String × JVal)) ←
    match args.message_metadata with
    | some (.jobj kvs) => pure (some kvs)
    | some _ => throw "ValueError: message_metadata must be a dictionary if provided"
    | none => pure none
  let requestMetadata : Option (List (String × JVal)) ←
    match args.request_metadata with
    | some (.jobj kvs) => pure (some kvs)
    | some _ => throw "ValueError: request_metadata must be a dictionary if provided"
    | none => pure none
  let role : A2ARole ←
    if args.role = "user" then pure .user
    else if args.role = "agent" then pure .agent
    else throw "ValueError: role must be either user or agent"
  let normalizedExtensions : Option (List JVal) ←
    match args.extensions with
    | some xs =>
      if xs.all isStr then pure (some xs)
      else throw "ValueError: All extension identifiers must be strings"
    | none => pure none
  let normalizedReferenceIds : Option (List JVal) ←
    match args.reference_task_ids with
    | some xs =>
      if xs.all isStr then pure (some xs)
      else throw "ValueError: All reference task identifiers must be strings"
    | none => pure none
  -- parts are typed A2APart values here, so the isinstance check passes
  let partList : List A2APart := args.parts.getD []
  let partList := match args.text with
    | some t => partList ++ [create_text_part t]
    | none => partList
  let (constructed, ctr) ←
    match args.message with
    | none =>
      if partList.isEmpty then
        throw "ValueError: Either message, parts, or text must be provided"
      else
        let midFresh : String × Nat := match args.message_id with
          | some s => if s = "" then (ctx.uuid ctr, ctr + 1) else (s, ctr)
          | none => (ctx.uuid ctr, ctr + 1)
        pure (({ role := role, parts := partList, message_id := midFresh.1,
                 metadata := messageMetadata,
                 extensions := normalizedExtensions,
                 reference_task_ids := normalizedReferenceIds,
                 task_id := args.task_id, context_id := args.context_id : A2AMessage }),
              midFresh.2)
    | some msg =>
      let constructed := msg
      let constructed := match messageMetadata with
        | some mm =>
          if mm.isEmpty then constructed
          else { constructed with metadata := some (dictUnion (constructed.metadata.getD []) mm) }
        | none => constructed
      let constructed := match normalizedExtensions with
        | some xs => { constructed with extensions := some xs }
        | none => constructed
      let constructed := match normalizedReferenceIds with
        | some xs => { constructed with reference_task_ids := some xs }
        | none => constructed
      let constructed := match args.task_id with
        | some t => { constructed with task_id := some t }
        | none => constructed
      let constructed := match args.context_id with
        | some c => { constructed with context_id := some c }
        | none => constructed
      let constructed := match args.message_id with
        | some mid => if mid ≠ constructed.message_id then { constructed with message_id := mid } else constructed
        | none => constructed
      pure (constructed, ctr)
  let reqFresh : String × Nat :=
    if truthy args.request_id then ("", ctr) else (ctx.uuid ctr, ctr + 1)
  let request := create_send_message_request constructed reqFresh.1 args.request_id
    args.configuration requestMetadata
  let topic := if args.audience = .everyone then group_topic ctx.node
               else "rooms/" ++ ctx.node.room_id ++ "/direct/" ++ pyStr args.recipient_id
  pure (request, topic, reqFresh.2)

/-- AgentNode.send_a2a_request: build, then publish; a publish failure is
not caught here and propagates to the caller. -/
def send_a2a_request (ctx : NodeCtx) (ctr : Nat) (args : A2ASendArgs) : SendOut :=
  match send_a2a_request_build ctx ctr args with
  | .error e => { result := .error e, pubs := [], ctr := ctr }
  | .ok (request, topic, ctr2) =>
    let payload := JVal.jobj request.to_dict
    match ctx.publish topic payload with
    | .ok _ => { result := .ok request.id, pubs := [(topic, payload)], ctr := ctr2 }
    | .error e => { result := .error e, pubs := [(topic, payload)], ctr := ctr2 }

/-- The response shapes distinguished by the isinstance dispatch of
_handle_message; a mapping response is a value carrying a jobj. -/
inductive HandlerResult where
  | request : SendMessageRequest → HandlerResult
  | a2aMessage : A2AMessage → HandlerResult
  | value : JVal → HandlerResult

/-- One registered handler: its call either returns an optional response
or raises. -/
abbrev Handler := IMessage → Except String (Option HandlerResult)

/-- Outcome of one iteration of the dispatch loop body. An error outcome is
the exception that the surrounding except clause catches and logs. -/
structure HandlerStepOut where
  outcome : Except String Unit
  pubs : List (String × JVal)
  ctr : Nat

/-- The destination mirroring rule of the dispatch loop: group topic for a
broadcast inbound, the direct topic of the original sender otherwise. -/
def mirror_topic (ctx : NodeCtx) (msg : IMessage) : String :=
  if msg.audience = .everyone then group_topic ctx.node
  else "rooms/" ++ ctx.node.room_id ++ "/direct/" ++ pyStr msg.sender_id

/-- The try-block body of one dispatch iteration in _handle_message:
invoke the handler, then translate and publish its response. -/
def run_handler_body (ctx : NodeCtx) (ctr : Nat) (msg : IMessage) (h : Handler) : HandlerStepOut :=
  match h msg with
  | .error e => { outcome := .error e, pubs := [], ctr := ctr }
  | .ok none => { outcome := .ok (), pubs := [], ctr := ctr }
  | .ok (some (.request r)) =>
    let targetTopic := mirror_topic ctx msg
    let payload := JVal.jobj r.to_dict
    match ctx.publish targetTopic payload with
    | .ok _ => { outcome := .ok (), pubs := [(targetTopic, payload)], ctr := ctr }
    | .error e => { outcome := .error e, pubs := [(targetTopic, payload)], ctr := ctr }
  | .ok (some (.a2aMessage am)) =>
    let out := send_a2a_request ctx ctr
      { message := some am, audience := msg.audience,
        recipient_id := if msg.audience = .direct then msg.sender_id else .null }
    { outcome := (match out.result with | .ok _ => .ok () | .error e => .error e),
      pubs := out.pubs, ctr := out.ctr }
  | .ok (some (.value v)) =>
    if is_a2a_envelope v then
      let targetTopic := mirror_topic ctx msg
      match ctx.publish targetTopic v with
      | .ok _ => { outcome := .ok (), pubs := [(targetTopic, v)], ctr := ctr }
      | .error e => { outcome := .error e, pubs := [(targetTopic, v)], ctr := ctr }
    else
      let out := send_message ctx ctr v msg.audience
        (if msg.audience = .direct then msg.sender_id else .null) msg.message_id
      { outcome := (match out.result with | .ok _ => .ok () | .error e => .error e),
        pubs := out.pubs, ctr := out.ctr }

/-- Accumulated outcome of the dispatch loop: the publish calls made, the
per-handler outcomes after exception isolation, and the counter. -/
structure DispatchOut where
  pubs : List (String × JVal)
  outcomes : List (Except String Unit)
  ctr : Nat

/-- The dispatch loop of _handle_message: every registered handler runs in
order; an error outcome is logged and the loop continues. -/
def dispatch_handlers (ctx : NodeCtx) (msg : IMessage) : Nat → List Handler → DispatchOut
  | ctr, [] => { pubs := [], outcomes := [], ctr := ctr }
  | ctr, h :: rest =>
    let step := run_handler_body ctx ctr msg h
    let restOut := dispatch_handlers ctx msg step.ctr rest
    { pubs := step.pubs ++ restOut.pubs,
      outcomes := step.outcome :: restOut.outcomes,
      ctr := restOut.ctr }

/-- AgentNode._handle_message end to end: normalize, then dispatch. A
rejected payload invokes no handler and publishes nothing. -/
def handle_message (ctx : NodeCtx) (handlers : List Handler) (topic : String)
    (payload : JVal) : DispatchOut :=
  match normalize_message ctx.node topic payload ctx.now (ctx.uuid 0) with
  | none => { pubs := [], outcomes := [], ctr := 1 }
  | some msg => dispatch_handlers ctx msg 1 handlers

/-- The transport calls AgentNode.leave makes, as per-call outcomes. -/
structure LeaveTransport where
  unsubscribe : String → Except String Unit
  disconnect : Except String Unit

/-- AgentNode.leave: a no-op success while unjoined; otherwise unsubscribe
the subscribed set then disconnect inside one try, flipping the joined
flag only after every call succeeded; any raise is caught, logged and
reported as a False return. -/
def leave (node : NodeState) (t : LeaveTransport) : Bool × NodeState :=
  if !node.joined then (true, node)
  else
    match (if node.respond_to_group then t.unsubscribe (group_topic node) else .ok ()) with
    | .error _ => (false, node)
    | .ok _ =>
      match (if node.respond_to_direct then t.unsubscribe (direct_topic node) else .ok ()) with
      | .error _ => (false, node)
      | .ok _ =>
        match t.disconnect with
        | .error _ => (false, node)
        | .ok _ => (true, { node with joined := false })

/-- Shape of one truthiness-gated mapping assignment in a to_dict body. -/
def objTail (key : String) : Option (List (String × JVal)) → List (String × JVal)
  | some md => if md.isEmpty then [] else [(key, .jobj md)]
  | none => []

/-- Shape of one truthiness-gated sequence assignment in a to_dict body. -/
def arrTail (key : String) : Option (List JVal) → List (String × JVal)
  | some xs => if xs.isEmpty then [] else [(key, .jarr xs)]
  | none => []

/-- Shape of one truthiness-gated string assignment in a to_dict body. -/
def strTail (key : String) : Option String → List (String × JVal)
  | some s => if s = "" then [] else [(key, .jstr s)]
  | none => []

/-- Shape of one is-not-None-gated assignment in a to_dict body. -/
def valTail (key : String) : Option JVal → List (String × JVal)
  | some v => [(key, v)]
  | none => []

/-- Shape of the truthiness-gated method assignment in the envelope. -/
def mthTail (key : String) : Option JVal → List (String × JVal)
  | some v => if truthy v then [(key, v)] else []
  | none => []

/-- Canonical parts: unique data keys, no reserved key shadowing, and an
optional metadata mapping that is absent or non-empty. On this subset the
serialization round trip is exact. -/
def part_canonical (p : A2APart) : Prop :=
  (p.data.map Prod.fst).Nodup ∧
  (jget p.data "kind").isNone = true ∧
  (jget p.data "metadata").isNone = true ∧
  p.metadata.all (fun md => !md.isEmpty) = true

/-- Canonical messages: non-empty parts each canonical, a non-empty
message id, and optional containers and gate strings absent or non-empty. -/
def msg_canonical (m : A2AMessage) : Prop :=
  m.parts ≠ [] ∧
  (∀ p ∈ m.parts, part_canonical p) ∧
  m.message_id ≠ "" ∧
  m.metadata.all (fun md => !md.isEmpty) = true ∧
  m.extensions.all (fun xs => !xs.isEmpty) = true ∧
  m.reference_task_ids.all (fun xs => !xs.isEmpty) = true ∧
  m.task_id.all (fun t => !(t == "")) = true ∧
  m.context_id.all (fun c => !(c == "")) = true

/-- Canonical send configurations: the truthiness-gated containers are
absent or non-empty. -/
def config_canonical (c : MessageSendConfiguration) : Prop :=
  c.accepted_output_modes.all (fun xs => !xs.isEmpty) = true ∧
  c.push_notification_config.all (fun cfg => !cfg.isEmpty) = true

/-- Canonical send parameters. -/
def params_canonical (p : MessageSendParams) : Prop :=
  msg_canonical p.message ∧
  (∀ c, p.configuration = some c → config_canonical c) ∧
  p.metadata.all (fun md => !md.isEmpty) = true

/-- Canonical envelopes: version 2.0, no JSON-null id, method or result
(Python None conflation), a truthy method when present, and canonical
params when present. -/
def env_canonical (e : A2AEnvelope) : Prop :=
  e.jsonrpc = "2.0" ∧
  e.id.all (fun v => !isNull v) = true ∧
  e.method.all truthy = true ∧
  (∀ p, e.params = some p → params_canonical p) ∧
  e.result.all (fun v => !isNull v) = true

/-- The sender resolution chain as worded by the amended claim: first
matching metadata key with a string value non-empty after trimming, then
a present and non-empty contextId, then a present and non-empty taskId,
then the role fallback. -/
def derive_sender_id_spec (m : A2AMessage) : String :=
  let fromMetadata := senderIdKeys.findSome? (fun key =>
    match jget (m.metadata.getD []) key with
    | some (.jstr s) => if strTrim s = "" then none else some s
    | _ => none)
  match fromMetadata with
  | some v => v
  | none =>
    if m.context_id.any (fun c => c != "") then m.context_id.getD ""
    else if m.task_id.any (fun t => t != "") then m.task_id.getD ""
    else "a2a:" ++ m.role.toStr

/-- Concrete node used by the end-to-end evaluations: joined, room room,
local agent id agent. -/
def cNode : NodeState := { room_id := "room", agent_id := "agent", joined := true }

/-- Concrete collaborators: a transport that accepts every publish, a
fixed clock, a readable uuid supply. -/
def cCtx : NodeCtx :=
  { node := cNode, publish := fun _ _ => .ok (), now := .jint 1000,
    uuid := fun n => "uuid-" ++ toString n }

/-- The inbound Ping message of the C1 scenario, sender metadata peer. -/
def c1ping : A2AMessage :=
  { role := .user, parts := [create_text_part "Ping"], message_id := "msg-ping",
    metadata := some [("sender_id", .jstr "peer")] }

/-- The inbound request of the C1 scenario, id req-234. -/
def c1inbound : SendMessageRequest :=
  create_send_message_request c1ping "unused-fresh" (.jstr "req-234")

/-- The Pong reply returned by the registered handler in the C1 scenario. -/
def c1pong : A2AMessage :=
  { role := .agent, parts := [create_text_part "Pong"], message_id := "msg-pong" }

/-- The registered handler of the C1 scenario. -/
def c1handler : Handler := fun _ => .ok (some (.a2aMessage c1pong))

/-- The dispatch outcome of the C1 scenario on the direct topic. -/
def c1out : DispatchOut :=
  handle_message cCtx [c1handler] (direct_topic cNode) (.jobj c1inbound.to_dict)

/-- The mapping of the single payload published in the C1 scenario. -/
def c1pubKvs : List (String × JVal) :=
  match c1out.pubs with
  | [(_, .jobj kvs)] => kvs
  | _ => []

/-- A part with an empty optional metadata mapping: constructible, but not
reproduced by the round trip. -/
def c2part : A2APart := { kind := "text", data := [], metadata := some [] }

/-- Canonical concrete instances exercising the amended round trip law. -/
def c2wpart : A2APart :=
  { kind := "text", data := [("text", .jstr "hi")], metadata := some [("k", .jint 1)] }

def c2wmsg : A2AMessage :=
  { role := .user, parts := [c2wpart], message_id := "m-1",
    metadata := some [("sender_id", .jstr "peer")],
    extensions := some [.jstr "ext"],
    reference_task_ids := some [.jstr "task-1"],
    task_id := some "task-1", context_id := some "ctx-1" }

def c2wenv : A2AEnvelope :=
  { jsonrpc := "2.0", id := some (.jstr "req-1"), method := some (.jstr "message/send"),
    params := some { message := c2wmsg,
                     configuration := some { history_length := some 5, blocking := some true },
                     metadata := some [("trace_id", .jstr "trace")] },
    result := none, error := none, raw := [] }

/-- A message whose contextId is present but empty: the claimed resolution
order picks the present contextId, the code skips the falsy one. -/
def c3cex : A2AMessage :=
  { role := .user, parts := [create_text_part "x"], message_id := "m",
    task_id := some "t", context_id := some "" }

/-- A message carrying both a senderId metadata claim and a contextId. -/
def c3mA : A2AMessage :=
  { role := .user, parts := [create_text_part "x"], message_id := "m",
    metadata := some [("senderId", .jstr "A")], context_id := some "ctx" }

/-- A message carrying only a contextId. -/
def c3mCtx : A2AMessage :=
  { role := .user, parts := [create_text_part "x"], message_id := "m",
    context_id := some "ctx" }

/-- A legacy payload whose sender is the local node itself. -/
def c4payload : JVal :=
  .jobj [("sender_id", .jstr "agent"), ("content", .jstr "own message")]

/-- An A2A payload whose derived sender is the local node itself. -/
def c4payloadA2A : JVal :=
  .jobj (SendMessageRequest.to_dict
    (create_send_message_request
      { role := .user, parts := [create_text_part "self"], message_id := "m-self",
        metadata := some [("sender_id", .jstr "agent")] }
      "unused-fresh" (.jstr "req-self")))

/-- A legacy mapping payload missing the content key. -/
def c5payload : JVal := .jobj [("sender_id", .jstr "peer")]

/-- A handler that raises and a handler that answers with plain content. -/
def c6bad : Handler := fun _ => .error "RuntimeError: boom"

def c6good : Handler := fun _ => .ok (some (.value (.jstr "after the fault")))

/-- A normalized inbound message used to drive the dispatch loop directly. -/
def c6msg : IMessage :=
  { sender_id := .jstr "peer", content := .jstr "Ping", timestamp := .jint 1,
    message_id := .jstr "mid-1", audience := .everyone }

/-- An inbound A2A request whose embedded message has one text part whose
text is the empty string. -/
def c9msg : A2AMessage :=
  { role := .user, parts := [create_text_part ""], message_id := "m-empty",
    metadata := some [("sender_id", .jstr "peer")] }

def c9payload : JVal :=
  .jobj (SendMessageRequest.to_dict (create_send_message_request c9msg "unused-fresh" (.jstr "rq-1")))

/-- The normalized message of the C9 witness scenario (text Ping). -/
def c9wmsg : IMessage :=
  match normalize_message cNode (direct_topic cNode) (.jobj c1inbound.to_dict) (.jint 5) "f" with
  | some m => m
  | none => { sender_id := .null, content := .null, timestamp := .null, message_id := .null }

/-- The normalized message of the C9 counterexample scenario. -/
def c9cexmsg : IMessage :=
  match normalize_message cNode (direct_topic cNode) c9payload (.jint 5) "f" with
  | some m => m
  | none => { sender_id := .null, content := .null, timestamp := .null, message_id := .null }

/-- The parsed envelope of the C9 witness scenario. -/
def c9wenv : A2AEnvelope :=
  match parse_a2a_envelope (.jobj c1inbound.to_dict) with
  | some e => e
  | none => { jsonrpc := "" }

/-- The embedded message of the C9 witness scenario. -/
def c9wmo : A2AMessage :=
  match c9wenv.message with
  | some m => m
  | none => c1ping

/-- A transport whose disconnect raises. -/
def c10t : LeaveTransport :=
  { unsubscribe := fun _ => .ok (), disconnect := .error "OSError: socket already closed" }

/-- Whether the transport call sequence executed by leave raises. -/
def leave_transport_error (node : NodeState) (t : LeaveTransport) : Bool :=
  match (if node.respond_to_group then t.unsubscribe (group_topic node) else .ok ()) with
  | .error _ => true
  | .ok _ =>
    match (if node.respond_to_direct then t.unsubscribe (direct_topic node) else .ok ()) with
    | .error _ => true
    | .ok _ =>
      match t.disconnect with
      | .error _ => true
      | .ok _ => false

/-! Association list facts used throughout the round trip proofs. -/

theorem jget_cons_eq (k : String) (v : JVal) (rest : List (String × JVal)) :
    jget ((k, v) :: rest) k = some v := by
  simp [jget]

theorem jget_cons_ne (k key : String) (v : JVal) (rest : List (String × JVal))
    (h : k ≠ key) : jget ((k, v) :: rest) key = jget rest key := by
  simp [jget, h]

theorem jget_append (l1 l2 : List (String × JVal)) (key : String) :
    jget (l1 ++ l2) key =
      match jget l1 key with
      | some v => some v
      | none => jget l2 key := by
  induction l1 with
  | nil => simp [jget]
  | cons kv rest ih =>
    obtain ⟨k, v⟩ := kv
    by_cases h : k = key
    · subst h; simp [jget]
    · simp [jget, h, ih]

theorem jget_eq_none_iff (l : List (String × JVal)) (key : String) :
    jget l key = none ↔ key ∉ l.map Prod.fst := by
  induction l with
  | nil => simp [jget]
  | cons kv rest ih =>
    obtain ⟨k, v⟩ := kv
    by_cases h : k = key
    · subst h; simp [jget]
    · simp [jget, h, ih, Ne.symm h]

theorem updAssoc_of_not_mem (l : List (String × JVal)) (key : String) (v : JVal)
    (h : key ∉ l.map Prod.fst) : updAssoc l key v = l ++ [(key, v)] := by
  induction l with
  | nil => rfl
  | cons kv rest ih =>
    obtain ⟨k, w⟩ := kv
    simp only [List.map_cons, List.mem_cons] at h
    push_neg at h
    simp [updAssoc, Ne.symm h.1, ih h.2]

theorem dictUnion_of_disjoint (base upd : List (String × JVal))
    (hdis : ∀ k ∈ upd.map Prod.fst, k ∉ base.map Prod.fst)
    (hnd : (upd.map Prod.fst).Nodup) : dictUnion base upd = base ++ upd := by
  induction upd generalizing base with
  | nil => simp [dictUnion]
  | cons kv rest ih =>
    obtain ⟨k, v⟩ := kv
    simp only [List.map_cons, List.nodup_cons] at hnd
    have hk : k ∉ base.map Prod.fst := hdis k (by simp)
    have step : dictUnion base ((k, v) :: rest) = dictUnion (base ++ [(k, v)]) rest := by
      simp [dictUnion, updAssoc_of_not_mem base k v hk]
    have hdis2 : ∀ k2 ∈ rest.map Prod.fst, k2 ∉ (base ++ [(k, v)]).map Prod.fst := by
      intro k2 hk2
      simp only [List.map_append, List.mem_append, List.map_cons, List.map_nil,
        List.mem_singleton, not_or]
      exact ⟨hdis k2 (by simp [hk2]), fun h2 => hnd.1 (h2 ▸ hk2)⟩
    rw [step, ih (base ++ [(k, v)]) hdis2 hnd.2]
    simp

/-- C7: audience detection is total (a plain function of the payload and
topic) and never raises; a recognized audience string (everyone, direct) is
used, and every other value, recognized-string or not, string or not,
absent or present, falls back to DIRECT exactly when the topic starts with
the direct prefix of the room and EVERYONE otherwise. -/
theorem a2a_C7_audience_detection_total :
    ∀ (node : NodeState) (topic : String) (kvs : List (String × JVal)),
      detect_audience node topic kvs =
        match jget kvs "audience" with
        | some (.jstr "everyone") => Audience.everyone
        | some (.jstr "direct") => Audience.direct
        | _ =>
          if strStartsWith topic ("rooms/" ++ node.room_id ++ "/direct/") then Audience.direct
          else Audience.everyone := by
  intro node topic kvs
  unfold detect_audience audienceOfString is_direct_topic
  cases h : jget kvs "audience" with
  | none => rfl
  | some v =>
    cases v with
    | null => rfl
    | jbool b => rfl
    | jint n => rfl
    | jarr xs => rfl
    | jobj o => rfl
    | jstr s =>
      by_cases h1 : s = "everyone"
      · subst h1; rfl
      · by_cases h2 : s = "direct"
        · subst h2; rfl
        · simp [h1, h2]

/-- C10: for a joined node, leave returns False exactly when one of the
transport calls it executes raises; on a raise the exception is caught and
the node state, in particular the joined flag, is left unchanged, and the
transition to unjoined happens only when every transport call succeeded.
Totality of leave embeds the no-exception-escapes guarantee. -/
theorem a2a_C10_leave_atomicity :
    ∀ (node : NodeState) (t : LeaveTransport), node.joined = true →
      (leave node t).1 = !leave_transport_error node t ∧
      (leave_transport_error node t = true → leave node t = (false, node)) ∧
      (leave_transport_error node t = false →
        leave node t = (true, { node with joined := false })) := by
  intro node t h
  unfold leave leave_transport_error
  rw [h]
  simp only [Bool.not_true, Bool.false_eq_true, if_false]
  generalize (if node.respond_to_group then t.unsubscribe (group_topic node)
    else Except.ok ()) = r1
  cases r1 with
  | error e => simp
  | ok u =>
    generalize (if node.respond_to_direct then t.unsubscribe (direct_topic node)
      else Except.ok ()) = r2
    cases r2 with
    | error e => simp
    | ok u2 =>
      cases t.disconnect with
      | error e => simp
      | ok u3 => simp

/-- C10 witness: a joined node with a transport whose disconnect raises
leaves with a False return and stays joined. -/
theorem a2a_C10_leave_atomicity_witness :
    leave cNode c10t = (false, cNode) :=
  (a2a_C10_leave_atomicity cNode c10t rfl).2.1 rfl

/-- C3 counterexample: a message with no usable metadata key, a present but
empty contextId, and taskId t. The claimed order returns contextId whenever
present, so it predicts the empty string here; the code skips a falsy
contextId and returns the taskId t instead. -/
theorem a2a_C3_sender_resolution_cex :
    derive_sender_id_from_message c3cex = "t" ∧ c3cex.context_id = some "" :=
  ⟨rfl, rfl⟩

/-- The metadata scan loop is the first-some search over the key list. -/
theorem firstSenderKey_eq_findSome (md : List (String × JVal)) :
    ∀ keys : List String,
      firstSenderKey md keys = keys.findSome? (fun key =>
        match jget md key with
        | some (.jstr s) => if strTrim s = "" then none else some s
        | _ => none) := by
  intro keys
  induction keys with
  | nil => rfl
  | cons key rest ih =>
    rw [List.findSome?_cons]
    cases h : jget md key with
    | none => simp only [firstSenderKey, h, ih]
    | some v =>
      cases v with
      | jstr s =>
        simp only [firstSenderKey, h]
        by_cases he : strTrim s = ""
        · simp [he, ih]
        · simp [he]
      | null => simp only [firstSenderKey, h, ih]
      | jbool b => simp only [firstSenderKey, h, ih]
      | jint n => simp only [firstSenderKey, h, ih]
      | jarr xs => simp only [firstSenderKey, h, ih]
      | jobj o => simp only [firstSenderKey, h, ih]

/-- C3 amended: sender derivation is total and follows the claimed order
with the non-empty qualifier on the structural fallbacks: the first of the
six metadata keys holding a string non-empty after trimming, else the
contextId when present and non-empty, else the taskId when present and
non-empty, else the role fallback; and the two concrete instances of the
claim hold. -/
theorem a2a_C3_sender_resolution_amended :
    (∀ m : A2AMessage, derive_sender_id_from_message m = derive_sender_id_spec m) ∧
    derive_sender_id_from_message c3mA = "A" ∧
    derive_sender_id_from_message c3mCtx = "ctx" := by
  refine ⟨?_, rfl, rfl⟩
  intro m
  unfold derive_sender_id_from_message derive_sender_id_spec
  simp only [firstSenderKey_eq_findSome]
  split
  next v hv => rfl
  next hv =>
    cases hc : m.context_id with
    | some c =>
      by_cases hce : c = ""
      · subst hce
        cases ht : m.task_id with
        | some t =>
          by_cases hte : t = ""
          · subst hte; simp
          · simp [hte]
        | none => simp
      · simp [hce]
    | none =>
      cases ht : m.task_id with
      | some t =>
        by_cases hte : t = ""
        · subst hte; simp
        · simp [hte]
      | none => simp

/-- A payload failing the jsonrpc discriminator is never parsed. -/
theorem parse_none_of_not_a2a (payload : JVal) (h : is_a2a_envelope payload = false) :
    parse_a2a_envelope payload = none := by
  unfold parse_a2a_envelope
  simp [h]

/-- Self suppression inside normalization: a resolved sender equal to the
local agent id makes both branches return absent. -/
theorem normalize_none_of_self (node : NodeState) (topic : String) (payload : JVal)
    (now : JVal) (fresh : String)
    (h : resolved_sender payload = some (.jstr node.agent_id)) :
    normalize_message node topic payload now fresh = none := by
  cases payload with
  | jobj kvs =>
    unfold resolved_sender at h
    unfold normalize_message
    cases hp : parse_a2a_envelope (.jobj kvs) with
    | some env =>
      simp only [hp] at h ⊢
      cases hm : env.message with
      | some mo =>
        simp only [hm] at h ⊢
        have hs : derive_sender_id_from_message mo = node.agent_id :=
          JVal.jstr.inj (Option.some.inj h)
        simp [hs]
      | none =>
        simp only [hm] at h ⊢
        unfold normalize_legacy
        simp [h, jeqStr]
    | none =>
      simp only [hp] at h ⊢
      unfold normalize_legacy
      simp [h, jeqStr]
  | null => simp [resolved_sender] at h
  | jbool b => simp [resolved_sender] at h
  | jint n => simp [resolved_sender] at h
  | jstr s => simp [resolved_sender] at h
  | jarr xs => simp [resolved_sender] at h

/-- C4: in both normalization branches, a payload whose resolved sender id
equals the local agent id is dropped: normalization returns absent for any
clock and fresh id, and the transport callback invokes zero handlers and
publishes nothing. -/
theorem a2a_C4_self_suppression :
    ∀ (ctx : NodeCtx) (handlers : List Handler) (topic : String) (payload : JVal),
      resolved_sender payload = some (.jstr ctx.node.agent_id) →
      (∀ now fresh, normalize_message ctx.node topic payload now fresh = none) ∧
      handle_message ctx handlers topic payload = { pubs := [], outcomes := [], ctr := 1 } := by
  intro ctx handlers topic payload h
  have hn : ∀ now fresh, normalize_message ctx.node topic payload now fresh = none :=
    fun now fresh => normalize_none_of_self ctx.node topic payload now fresh h
  refine ⟨hn, ?_⟩
  unfold handle_message
  rw [hn ctx.now (ctx.uuid 0)]

/-- C4 witness: a legacy payload and an A2A payload whose senders are the
local node produce no handler run and no publish. -/
theorem a2a_C4_self_suppression_witness :
    resolved_sender c4payload = some (.jstr cCtx.node.agent_id) ∧
    resolved_sender c4payloadA2A = some (.jstr cCtx.node.agent_id) ∧
    handle_message cCtx [c1handler] (group_topic cNode) c4payload =
      { pubs := [], outcomes := [], ctr := 1 } ∧
    handle_message cCtx [c1handler] (direct_topic cNode) c4payloadA2A =
      { pubs := [], outcomes := [], ctr := 1 } :=
  ⟨rfl, rfl,
   (a2a_C4_self_suppression cCtx [c1handler] (group_topic cNode) c4payload rfl).2,
   (a2a_C4_self_suppression cCtx [c1handler] (direct_topic cNode) c4payloadA2A rfl).2⟩

/-- C5: a payload that is not a mapping, or a non-A2A mapping missing the
sender_id key or the content key, is dropped by normalization: zero
handlers are invoked and nothing is published. The callback is a total
function, so no exception escapes to the transport. -/
theorem a2a_C5_malformed_payload_safety :
    ∀ (ctx : NodeCtx) (handlers : List Handler) (topic : String) (payload : JVal),
      ((∀ kvs, payload ≠ .jobj kvs) ∨
        (∃ kvs, payload = .jobj kvs ∧ is_a2a_envelope payload = false ∧
          ((jget kvs "sender_id").isNone = true ∨ (jget kvs "content").isNone = true))) →
      normalize_message ctx.node topic payload ctx.now (ctx.uuid 0) = none ∧
      handle_message ctx handlers topic payload = { pubs := [], outcomes := [], ctr := 1 } := by
  intro ctx handlers topic payload h
  have hn : normalize_message ctx.node topic payload ctx.now (ctx.uuid 0) = none := by
    rcases h with h | ⟨kvs, rfl, hna, hmiss⟩
    · cases payload with
      | jobj kvs2 => exact absurd rfl (h kvs2)
      | null => rfl
      | jbool b => rfl
      | jint n => rfl
      | jstr s => rfl
      | jarr xs => rfl
    · unfold normalize_message
      simp only [parse_none_of_not_a2a _ hna]
      unfold normalize_legacy
      rcases hmiss with hs | hc
      · simp [Option.isNone_iff_eq_none.mp hs]
      · cases hjs : jget kvs "sender_id" with
        | none => simp
        | some v => simp [Option.isNone_iff_eq_none.mp hc]
  refine ⟨hn, ?_⟩
  unfold handle_message
  rw [hn]

/-- C5 witness: a plain string payload and a legacy mapping without content
are both dropped with zero handler runs and zero publishes. -/
theorem a2a_C5_malformed_payload_safety_witness :
    handle_message cCtx [c1handler] (group_topic cNode) (.jstr "not a mapping") =
      { pubs := [], outcomes := [], ctr := 1 } ∧
    handle_message cCtx [c1handler] (group_topic cNode) c5payload =
      { pubs := [], outcomes := [], ctr := 1 } :=
  ⟨(a2a_C5_malformed_payload_safety cCtx [c1handler] (group_topic cNode) (.jstr "not a mapping")
      (.inl (fun _ hk => JVal.noConfusion hk))).2,
   (a2a_C5_malformed_payload_safety cCtx [c1handler] (group_topic cNode) c5payload
      (.inr ⟨[("sender_id", .jstr "peer")], rfl, rfl, .inr rfl⟩)).2⟩

/-- The dispatch loop processes a concatenation of handler lists as the
two lists in sequence, threading the uuid counter. -/
theorem dispatch_handlers_append (ctx : NodeCtx) (msg : IMessage) :
    ∀ (ctr : Nat) (l1 l2 : List Handler),
      dispatch_handlers ctx msg ctr (l1 ++ l2) =
        { pubs := (dispatch_handlers ctx msg ctr l1).pubs ++
            (dispatch_handlers ctx msg (dispatch_handlers ctx msg ctr l1).ctr l2).pubs,
          outcomes := (dispatch_handlers ctx msg ctr l1).outcomes ++
            (dispatch_handlers ctx msg (dispatch_handlers ctx msg ctr l1).ctr l2).outcomes,
          ctr := (dispatch_handlers ctx msg (dispatch_handlers ctx msg ctr l1).ctr l2).ctr } := by
  intro ctr l1 l2
  induction l1 generalizing ctr with
  | nil => rfl
  | cons h rest ih => simp [dispatch_handlers, ih, List.append_assoc]

/-- Every registered handler contributes exactly one outcome: none is
skipped and none aborts the loop. -/
theorem dispatch_outcomes_length (ctx : NodeCtx) (msg : IMessage) :
    ∀ (ctr : Nat) (handlers : List Handler),
      (dispatch_handlers ctx msg ctr handlers).outcomes.length = handlers.length := by
  intro ctr handlers
  induction handlers generalizing ctr with
  | nil => rfl
  | cons h rest ih => simp [dispatch_handlers, ih]

/-- C6: when the body of one handler iteration raises (the handler call
itself or the translation and publish of its result), the exception is
caught as the logged error outcome of that handler, every handler registered
after it still runs on the same message with its publishes intact, and the
loop runs to completion with one outcome per registered handler. -/
theorem a2a_C6_handler_fault_isolation :
    ∀ (ctx : NodeCtx) (msg : IMessage) (ctr : Nat) (hs1 hs2 : List Handler)
      (h : Handler) (e : String),
      (run_handler_body ctx (dispatch_handlers ctx msg ctr hs1).ctr msg h).outcome = .error e →
      dispatch_handlers ctx msg ctr (hs1 ++ h :: hs2) =
        { pubs := (dispatch_handlers ctx msg ctr hs1).pubs ++
            ((run_handler_body ctx (dispatch_handlers ctx msg ctr hs1).ctr msg h).pubs ++
             (dispatch_handlers ctx msg
               (run_handler_body ctx (dispatch_handlers ctx msg ctr hs1).ctr msg h).ctr
               hs2).pubs),
          outcomes := (dispatch_handlers ctx msg ctr hs1).outcomes ++
            (.error e :: (dispatch_handlers ctx msg
               (run_handler_body ctx (dispatch_handlers ctx msg ctr hs1).ctr msg h).ctr
               hs2).outcomes),
          ctr := (dispatch_handlers ctx msg
            (run_handler_body ctx (dispatch_handlers ctx msg ctr hs1).ctr msg h).ctr
            hs2).ctr } ∧
      (dispatch_handlers ctx msg ctr (hs1 ++ h :: hs2)).outcomes.length =
        hs1.length + 1 + hs2.length := by
  intro ctx msg ctr hs1 hs2 h e herr
  constructor
  · rw [dispatch_handlers_append ctx msg ctr hs1 (h :: hs2)]
    simp [dispatch_handlers, herr]
  · rw [dispatch_outcomes_length]
    simp only [List.length_append, List.length_cons]
    omega

/-- C6 witness: with a raising handler followed by a responding handler,
the loop records the caught error, still runs the second handler, and the
publish of the second handler to the group topic goes out. -/
theorem a2a_C6_handler_fault_isolation_witness :
    (dispatch_handlers cCtx c6msg 1 ([] ++ c6bad :: [c6good])).outcomes.length =
      List.length ([] : List Handler) + 1 + List.length [c6good] ∧
    (dispatch_handlers cCtx c6msg 1 [c6bad, c6good]).pubs.map Prod.fst = [group_topic cNode] ∧
    (dispatch_handlers cCtx c6msg 1 [c6bad, c6good]).outcomes =
      [.error "RuntimeError: boom", .ok ()] :=
  ⟨(a2a_C6_handler_fault_isolation cCtx c6msg 1 [] [c6good] c6bad "RuntimeError: boom" rfl).2,
   rfl, rfl⟩

/-- C8 counterexample: the empty string is a recipient id, but a direct
send with it raises the invalid-argument error and publishes nothing, for
both send operations, instead of publishing to the direct topic of the
empty recipient as the claim universally states. -/
theorem a2a_C8_topic_selection_cex :
    send_message cCtx 0 (.jstr "hi") .direct (.jstr "") .null =
      { result := .error "ValueError: Recipient ID required for direct messages",
        pubs := [], ctr := 0 } ∧
    send_a2a_request cCtx 0 { text := some "hi", audience := .direct, recipient_id := .jstr "" } =
      { result := .error "ValueError: Recipient ID required for direct A2A messages",
        pubs := [], ctr := 0 } :=
  ⟨rfl, rfl⟩

/-- A text-only A2A request of a joined node to everyone builds a plain
message send request and resolves the group topic. -/
theorem send_a2a_build_text_everyone (ctx : NodeCtx) (ctr : Nat) (t : String) (r : JVal)
    (hj : ctx.node.joined = true) :
    send_a2a_request_build ctx ctr { text := some t, audience := .everyone, recipient_id := r } =
      .ok (create_send_message_request
             { role := .user, parts := [create_text_part t], message_id := ctx.uuid ctr }
             (ctx.uuid (ctr + 1)) .null none none,
           group_topic ctx.node, ctr + 2) := by
  unfold send_a2a_request_build
  rw [hj]
  rfl

/-- A text-only A2A request of a joined node to a non-empty recipient
builds a plain message send request and resolves the direct topic. -/
theorem send_a2a_build_text_direct (ctx : NodeCtx) (ctr : Nat) (t X : String)
    (hj : ctx.node.joined = true) (hX : X ≠ "") :
    send_a2a_request_build ctx ctr { text := some t, audience := .direct, recipient_id := .jstr X } =
      .ok (create_send_message_request
             { role := .user, parts := [create_text_part t], message_id := ctx.uuid ctr }
             (ctx.uuid (ctr + 1)) .null none none,
           "rooms/" ++ ctx.node.room_id ++ "/direct/" ++ X, ctr + 2) := by
  unfold send_a2a_request_build
  rw [hj, show truthy (.jstr X) = true by simp [truthy, hX]]
  rfl

/-- C8 amended: for a joined node, a send with audience EVERYONE publishes
to the group topic and a send with audience DIRECT and a non-empty
recipient id X publishes to the direct topic of X, for both the legacy
send and the A2A request send (exercised with a text payload); a DIRECT
send whose recipient id is absent or falsy (the empty string) raises the
invalid-argument error and publishes nothing, for both operations. -/
theorem a2a_C8_topic_selection_amended :
    ∀ (ctx : NodeCtx) (ctr : Nat), ctx.node.joined = true →
      (∀ content r irt,
        (send_message ctx ctr content .everyone r irt).pubs.map Prod.fst =
          [group_topic ctx.node]) ∧
      (∀ content irt X, X ≠ "" →
        (send_message ctx ctr content .direct (.jstr X) irt).pubs.map Prod.fst =
          ["rooms/" ++ ctx.node.room_id ++ "/direct/" ++ X]) ∧
      (∀ content irt r, truthy r = false →
        send_message ctx ctr content .direct r irt =
          { result := .error "ValueError: Recipient ID required for direct messages",
            pubs := [], ctr := ctr }) ∧
      (∀ t r,
        (send_a2a_request ctx ctr
          { text := some t, audience := .everyone, recipient_id := r }).pubs.map Prod.fst =
          [group_topic ctx.node]) ∧
      (∀ t X, X ≠ "" →
        (send_a2a_request ctx ctr
          { text := some t, audience := .direct, recipient_id := .jstr X }).pubs.map Prod.fst =
          ["rooms/" ++ ctx.node.room_id ++ "/direct/" ++ X]) ∧
      (∀ args : A2ASendArgs, args.audience = .direct → truthy args.recipient_id = false →
        send_a2a_request ctx ctr args =
          { result := .error "ValueError: Recipient ID required for direct A2A messages",
            pubs := [], ctr := ctr }) := by
  intro ctx ctr hj
  refine ⟨?_, ?_, ?_, ?_, ?_, ?_⟩
  · intro content r irt
    unfold send_message
    simp only [hj, Bool.not_true, Bool.false_eq_true, if_false]
    split
    next hcond => exact absurd hcond.1 (fun hc => Audience.noConfusion hc)
    next _ => split <;> simp
  · intro content irt X hX
    unfold send_message
    simp only [hj, Bool.not_true, Bool.false_eq_true, if_false]
    rw [if_neg (by simp [truthy, hX])]
    split <;> simp [pyStr]
  · intro content irt r hr
    unfold send_message
    rw [hj, hr]
    rfl
  · intro t r
    unfold send_a2a_request
    rw [send_a2a_build_text_everyone ctx ctr t r hj]
    split
    next heq => exact Except.noConfusion heq
    next request topic ctr2 heq =>
      cases heq
      dsimp only
      split <;> simp
  · intro t X hX
    unfold send_a2a_request
    rw [send_a2a_build_text_direct ctx ctr t X hj hX]
    split
    next heq => exact Except.noConfusion heq
    next request topic ctr2 heq =>
      cases heq
      dsimp only
      split <;> simp
  · intro args ha hr
    unfold send_a2a_request send_a2a_request_build
    rw [hj, ha, hr]
    rfl

/-- C8 witness: the four publishing shapes and the two error shapes at
concrete inputs on the joined concrete node. -/
theorem a2a_C8_topic_selection_amended_witness :
    (send_message cCtx 0 (.jstr "hello") .everyone .null .null).pubs.map Prod.fst =
      [group_topic cNode] ∧
    (send_message cCtx 0 (.jstr "hello") .direct (.jstr "peer") .null).pubs.map Prod.fst =
      ["rooms/" ++ cNode.room_id ++ "/direct/" ++ "peer"] ∧
    send_message cCtx 0 (.jstr "hello") .direct .null .null =
      { result := .error "ValueError: Recipient ID required for direct messages",
        pubs := [], ctr := 0 } ∧
    (send_a2a_request cCtx 0
      { text := some "hi", audience := .everyone, recipient_id := .null }).pubs.map Prod.fst =
      [group_topic cNode] ∧
    (send_a2a_request cCtx 0
      { text := some "hi", audience := .direct, recipient_id := .jstr "peer" }).pubs.map Prod.fst =
      ["rooms/" ++ cNode.room_id ++ "/direct/" ++ "peer"] ∧
    send_a2a_request cCtx 0 { text := some "hi", audience := .direct, recipient_id := .null } =
      { result := .error "ValueError: Recipient ID required for direct A2A messages",
        pubs := [], ctr := 0 } :=
  ⟨(a2a_C8_topic_selection_amended cCtx 0 rfl).1 (.jstr "hello") .null .null,
   (a2a_C8_topic_selection_amended cCtx 0 rfl).2.1 (.jstr "hello") .null "peer" (by decide),
   (a2a_C8_topic_selection_amended cCtx 0 rfl).2.2.1 (.jstr "hello") .null .null rfl,
   (a2a_C8_topic_selection_amended cCtx 0 rfl).2.2.2.1 "hi" .null,
   (a2a_C8_topic_selection_amended cCtx 0 rfl).2.2.2.2.1 "hi" "peer" (by decide),
   (a2a_C8_topic_selection_amended cCtx 0 rfl).2.2.2.2.2
     { text := some "hi", audience := .direct, recipient_id := .null } rfl rfl⟩

/-- C9 counterexample: an accepted A2A envelope whose embedded message has
a first text part carrying the empty string. The claim says the normalized
content equals that string (the empty string included); the code treats
the empty string as falsy and stores the full serialized message tree. -/
theorem a2a_C9_content_derivation_cex :
    normalize_message cNode (direct_topic cNode) c9payload (.jint 5) "f" = some c9cexmsg ∧
    c9msg.primary_text = some "" ∧
    c9cexmsg.content = .jobj c9msg.to_dict ∧
    c9cexmsg.content ≠ .jstr "" :=
  ⟨rfl, rfl, rfl, fun h => JVal.noConfusion h⟩

/-- C9 amended: for every accepted inbound A2A envelope, the normalized
content is the primary_text of the embedded message when that text is a
non-empty string; when the primary text is absent or is the empty string,
the content is the full serialized tree of the embedded message. -/
theorem a2a_C9_content_derivation_amended :
    ∀ (node : NodeState) (topic : String) (payload : JVal) (now : JVal) (fresh : String)
      (env : A2AEnvelope) (mo : A2AMessage) (m : IMessage),
      parse_a2a_envelope payload = some env →
      env.message = some mo →
      normalize_message node topic payload now fresh = some m →
      m.content = (match mo.primary_text with
        | some s => if s = "" then .jobj mo.to_dict else .jstr s
        | none => .jobj mo.to_dict) := by
  intro node topic payload now fresh env mo m hp hm hn
  cases payload with
  | jobj kvs =>
    unfold normalize_message at hn
    simp only [hp, hm] at hn
    by_cases hs : derive_sender_id_from_message mo = node.agent_id
    · simp [hs] at hn
    · rw [if_neg hs] at hn
      have hc := congrArg IMessage.content (Option.some.inj hn)
      rw [← hc]
      cases hpt : mo.primary_text with
      | some s =>
        by_cases hse : s = ""
        · simp [hse]
        · simp [hse]
      | none => simp
  | null => simp [parse_a2a_envelope, is_a2a_envelope] at hp
  | jbool b => simp [parse_a2a_envelope, is_a2a_envelope] at hp
  | jint n => simp [parse_a2a_envelope, is_a2a_envelope] at hp
  | jstr s => simp [parse_a2a_envelope, is_a2a_envelope] at hp
  | jarr xs => simp [parse_a2a_envelope, is_a2a_envelope] at hp

/-- C9 witness: the Ping scenario normalizes with content Ping through the
amended derivation rule. -/
theorem a2a_C9_content_derivation_amended_witness :
    c9wmsg.content = (match c9wmo.primary_text with
      | some s => if s = "" then .jobj c9wmo.to_dict else .jstr s
      | none => .jobj c9wmo.to_dict) ∧
    c9wmsg.content = .jstr "Ping" :=
  ⟨a2a_C9_content_derivation_amended cNode (direct_topic cNode) (.jobj c1inbound.to_dict)
      (.jint 5) "f" c9wenv c9wmo c9wmsg rfl rfl rfl,
   rfl⟩

/-- C1 evaluation at the claimed scenario: the inbound A2A request with id
req-234, text Ping and sender metadata peer on the direct topic of a
joined node, with one handler answering the A2A message Pong, produces
exactly one publish to rooms/room/direct/peer; but the payload is a fresh
message/send JSON-RPC request envelope: its id is the newly generated
uuid-1 and not the inbound req-234, it has no result field, and Pong sits
under params.message.parts. The repository test
test_handler_returning_a2a_message asserts the claimed result envelope, so
the code contradicts its tests here. -/
theorem a2a_C1_response_translation_eval :
    c1out.pubs.map Prod.fst = ["rooms/room/direct/peer"] ∧
    c1out.pubs = [("rooms/room/direct/peer", .jobj c1pubKvs)] ∧
    c1out.outcomes = [.ok ()] ∧
    jget c1pubKvs "id" = some (.jstr "uuid-1") ∧
    jget c1pubKvs "id" ≠ some (.jstr "req-234") ∧
    jget c1pubKvs "method" = some (.jstr "message/send") ∧
    jget c1pubKvs "result" = none ∧
    (match jget c1pubKvs "params" with
     | some (.jobj paramsKvs) =>
       match jget paramsKvs "message" with
       | some (.jobj msgKvs) =>
         jget msgKvs "parts" =
           some (.jarr [.jobj [("kind", .jstr "text"), ("text", .jstr "Pong")]])
       | _ => False
     | _ => False) :=
  ⟨rfl, rfl, rfl, rfl,
   fun h => absurd (JVal.jstr.inj (Option.some.inj h)) (by decide),
   rfl, rfl, rfl⟩

/-! Key-set facts for the emission tails. -/

theorem objTail_keys (key : String) (o : Option (List (String × JVal))) :
    (objTail key o).map Prod.fst ⊆ [key] := by
  cases o with
  | none => simp [objTail]
  | some md =>
    by_cases he : md.isEmpty <;> simp [objTail, he]

theorem arrTail_keys (key : String) (o : Option (List JVal)) :
    (arrTail key o).map Prod.fst ⊆ [key] := by
  cases o with
  | none => simp [arrTail]
  | some xs =>
    by_cases he : xs.isEmpty <;> simp [arrTail, he]

theorem strTail_keys (key : String) (o : Option String) :
    (strTail key o).map Prod.fst ⊆ [key] := by
  cases o with
  | none => simp [strTail]
  | some s =>
    by_cases he : s = "" <;> simp [strTail, he]

theorem valTail_keys (key : String) (o : Option JVal) :
    (valTail key o).map Prod.fst ⊆ [key] := by
  cases o with
  | none => simp [valTail]
  | some v => simp [valTail]

theorem mthTail_keys (key : String) (o : Option JVal) :
    (mthTail key o).map Prod.fst ⊆ [key] := by
  cases o with
  | none => simp [mthTail]
  | some v =>
    by_cases ht : truthy v <;> simp [mthTail, ht]

/-- A lookup skips a block that does not hold its key. -/
theorem jget_skip (l1 l2 : List (String × JVal)) (key : String)
    (h : key ∉ l1.map Prod.fst) : jget (l1 ++ l2) key = jget l2 key := by
  rw [jget_append, (jget_eq_none_iff l1 key).mpr h]

/-- A lookup inside a block whose keys sit in a singleton set misses when
the looked-up key differs. -/
theorem not_mem_of_keys_subset (l : List (String × JVal)) (k key : String)
    (hsub : l.map Prod.fst ⊆ [k]) (h : key ≠ k) : key ∉ l.map Prod.fst := by
  intro hc
  have := hsub hc
  simp only [List.mem_singleton] at this
  exact h this

/-- Canonical shape of A2APart.to_dict: the kind binding, the data entries
in order, then the metadata tail. -/
theorem part_to_dict_canonical (p : A2APart)
    (hnd : (p.data.map Prod.fst).Nodup)
    (hk : (jget p.data "kind").isNone = true)
    (hm : (jget p.data "metadata").isNone = true) :
    p.to_dict = ("kind", JVal.jstr p.kind) :: p.data ++ objTail "metadata" p.metadata := by
  unfold A2APart.to_dict
  have hk' : "kind" ∉ p.data.map Prod.fst :=
    (jget_eq_none_iff _ _).mp (Option.isNone_iff_eq_none.mp hk)
  have hm' : "metadata" ∉ p.data.map Prod.fst :=
    (jget_eq_none_iff _ _).mp (Option.isNone_iff_eq_none.mp hm)
  have hbase : dictUnion [("kind", JVal.jstr p.kind)] p.data =
      ("kind", JVal.jstr p.kind) :: p.data := by
    rw [dictUnion_of_disjoint _ _ ?_ hnd]
    · rfl
    · intro k hk2
      simp only [List.map_cons, List.map_nil, List.mem_cons, List.not_mem_nil, or_false]
      exact fun hc => hk' (hc ▸ hk2)
  rw [hbase]
  cases p.metadata with
  | none => simp [objTail]
  | some md =>
    by_cases he : md.isEmpty
    · simp [objTail, he]
    · simp only [objTail, he, Bool.false_eq_true, if_false]
      rw [updAssoc_of_not_mem _ _ _ (by simp [hm'])]

/-- Round trip for canonical parts. -/
theorem part_round_trip (p : A2APart) (hc : part_canonical p) :
    A2APart.from_dict (.jobj p.to_dict) = .ok p := by
  obtain ⟨pk, pd, pm⟩ := p
  obtain ⟨hnd, hk, hm, hmm⟩ := hc
  have hk0 : jget pd "kind" = none := Option.isNone_iff_eq_none.mp hk
  have hm0 : jget pd "metadata" = none := Option.isNone_iff_eq_none.mp hm
  have hfilter : pd.filter (fun kv => kv.1 != "kind" && kv.1 != "metadata") = pd := by
    rw [List.filter_eq_self]
    intro kv hkv
    have h1 : kv.1 ≠ "kind" :=
      fun hc => ((jget_eq_none_iff _ _).mp hk0) (hc ▸ List.mem_map_of_mem Prod.fst hkv)
    have h2 : kv.1 ≠ "metadata" :=
      fun hc => ((jget_eq_none_iff _ _).mp hm0) (hc ▸ List.mem_map_of_mem Prod.fst hkv)
    simp [h1, h2]
  rw [part_to_dict_canonical ⟨pk, pd, pm⟩ hnd hk hm]
  cases pm with
  | none =>
    simp [A2APart.from_dict, objTail, jget, jget_append, hk0, hm0, hfilter, List.filter]
  | some md =>
    have he : md.isEmpty = false := by simpa using hmm
    simp [A2APart.from_dict, objTail, he, jget, jget_append, hk0, hm0, hfilter,
      List.filter_append, List.filter]

/-- One truthiness-gated mapping assignment appends its tail. -/
theorem step_obj (pre : List (String × JVal)) (key : String)
    (o : Option (List (String × JVal))) (h : key ∉ pre.map Prod.fst) :
    (match o with
     | some md => if md.isEmpty then pre else updAssoc pre key (.jobj md)
     | none => pre) = pre ++ objTail key o := by
  cases o with
  | none => simp [objTail]
  | some md =>
    by_cases he : md.isEmpty
    · simp [objTail, he]
    · simp [objTail, he, updAssoc_of_not_mem pre key _ h]

/-- One truthiness-gated sequence assignment appends its tail. -/
theorem step_arr (pre : List (String × JVal)) (key : String)
    (o : Option (List JVal)) (h : key ∉ pre.map Prod.fst) :
    (match o with
     | some xs => if xs.isEmpty then pre else updAssoc pre key (.jarr xs)
     | none => pre) = pre ++ arrTail key o := by
  cases o with
  | none => simp [arrTail]
  | some xs =>
    by_cases he : xs.isEmpty
    · simp [arrTail, he]
    · simp [arrTail, he, updAssoc_of_not_mem pre key _ h]

/-- One truthiness-gated string assignment appends its tail. -/
theorem step_str (pre : List (String × JVal)) (key : String)
    (o : Option String) (h : key ∉ pre.map Prod.fst) :
    (match o with
     | some s => if s = "" then pre else updAssoc pre key (.jstr s)
     | none => pre) = pre ++ strTail key o := by
  cases o with
  | none => simp [strTail]
  | some s =>
    by_cases he : s = ""
    · simp [strTail, he]
    · simp [strTail, he, updAssoc_of_not_mem pre key _ h]

/-- Shape of A2AMessage.to_dict: the four required bindings then the five
optional tails in emission order. -/
theorem msg_to_dict_canonical (m : A2AMessage) :
    m.to_dict = [("role", JVal.jstr m.role.toStr),
        ("parts", JVal.jarr (m.parts.map (fun p => JVal.jobj p.to_dict))),
        ("messageId", JVal.jstr m.message_id),
        ("kind", m.kind)] ++ objTail "metadata" m.metadata
      ++ arrTail "extensions" m.extensions
      ++ arrTail "referenceTaskIds" m.reference_task_ids
      ++ strTail "taskId" m.task_id
      ++ strTail "contextId" m.context_id := by
  have h1 : "metadata" ∉ ([("role", JVal.jstr m.role.toStr),
      ("parts", JVal.jarr (m.parts.map (fun p => JVal.jobj p.to_dict))),
      ("messageId", JVal.jstr m.message_id),
      ("kind", m.kind)] : List (String × JVal)).map Prod.fst := by simp
  have h2 : "extensions" ∉ (([("role", JVal.jstr m.role.toStr),
      ("parts", JVal.jarr (m.parts.map (fun p => JVal.jobj p.to_dict))),
      ("messageId", JVal.jstr m.message_id),
      ("kind", m.kind)] ++ objTail "metadata" m.metadata).map Prod.fst) := by
    simp only [List.map_append, List.mem_append, not_or]
    exact ⟨by simp, not_mem_of_keys_subset _ _ _ (objTail_keys _ _) (by decide)⟩
  have h3 : "referenceTaskIds" ∉ (([("role", JVal.jstr m.role.toStr),
      ("parts", JVal.jarr (m.parts.map (fun p => JVal.jobj p.to_dict))),
      ("messageId", JVal.jstr m.message_id),
      ("kind", m.kind)] ++ objTail "metadata" m.metadata
      ++ arrTail "extensions" m.extensions).map Prod.fst) := by
    simp only [List.map_append, List.mem_append, not_or]
    exact ⟨⟨by simp, not_mem_of_keys_subset _ _ _ (objTail_keys _ _) (by decide)⟩,
      not_mem_of_keys_subset _ _ _ (arrTail_keys _ _) (by decide)⟩
  have h4 : "taskId" ∉ (([("role", JVal.jstr m.role.toStr),
      ("parts", JVal.jarr (m.parts.map (fun p => JVal.jobj p.to_dict))),
      ("messageId", JVal.jstr m.message_id),
      ("kind", m.kind)] ++ objTail "metadata" m.metadata
      ++ arrTail "extensions" m.extensions
      ++ arrTail "referenceTaskIds" m.reference_task_ids).map Prod.fst) := by
    simp only [List.map_append, List.mem_append, not_or]
    exact ⟨⟨⟨by simp, not_mem_of_keys_subset _ _ _ (objTail_keys _ _) (by decide)⟩,
      not_mem_of_keys_subset _ _ _ (arrTail_keys _ _) (by decide)⟩,
      not_mem_of_keys_subset _ _ _ (arrTail_keys _ _) (by decide)⟩
  have h5 : "contextId" ∉ (([("role", JVal.jstr m.role.toStr),
      ("parts", JVal.jarr (m.parts.map (fun p => JVal.jobj p.to_dict))),
      ("messageId", JVal.jstr m.message_id),
      ("kind", m.kind)] ++ objTail "metadata" m.metadata
      ++ arrTail "extensions" m.extensions
      ++ arrTail "referenceTaskIds" m.reference_task_ids
      ++ strTail "taskId" m.task_id).map Prod.fst) := by
    simp only [List.map_append, List.mem_append, not_or]
    exact ⟨⟨⟨⟨by simp, not_mem_of_keys_subset _ _ _ (objTail_keys _ _) (by decide)⟩,
      not_mem_of_keys_subset _ _ _ (arrTail_keys _ _) (by decide)⟩,
      not_mem_of_keys_subset _ _ _ (arrTail_keys _ _) (by decide)⟩,
      not_mem_of_keys_subset _ _ _ (strTail_keys _ _) (by decide)⟩
  unfold A2AMessage.to_dict
  dsimp only
  rw [step_obj _ _ _ h1, step_arr _ _ _ h2, step_arr _ _ _ h3, step_str _ _ _ h4,
    step_str _ _ _ h5]

/-- Parsing the serialized parts list reproduces the parts in order. -/
theorem parts_mapM_round_trip (parts : List A2APart)
    (h : ∀ p ∈ parts, part_canonical p) :
    (parts.map (fun p => JVal.jobj p.to_dict)).mapM A2APart.from_dict = .ok parts := by
  induction parts with
  | nil => rfl
  | cons p rest ih =>
    simp only [List.map_cons, List.mapM_cons]
    rw [part_round_trip p (h p (by simp))]
    rw [ih (fun q hq => h q (by simp [hq]))]
    rfl

set_option maxHeartbeats 3200000 in
/-- Round trip for canonical messages. -/
theorem msg_round_trip (m : A2AMessage) (hc : msg_canonical m) :
    A2AMessage.from_dict (.jobj m.to_dict) = .ok m := by
  obtain ⟨mr, mp, mid, mk, mmd, mex, mrf, mtk, mcx⟩ := m
  obtain ⟨hne, hparts, hmid, hmd, hext, href, htask, hctx⟩ := hc
  have hpe : (mp.map (fun p => JVal.jobj p.to_dict)).isEmpty = false := by
    cases mp with
    | nil => exact absurd rfl hne
    | cons a l => rfl
  have hmap := parts_mapM_round_trip mp hparts
  rw [msg_to_dict_canonical ⟨mr, mp, mid, mk, mmd, mex, mrf, mtk, mcx⟩]
  cases mmd <;> cases mex <;> cases mrf <;> cases mtk <;> cases mcx <;> cases mr <;>
    simp_all [A2AMessage.from_dict, objTail, arrTail, strTail, jget, jget_append, jgetD,
      pyOr, truthy, A2ARole.toStr, bne_iff_ne, List.cons_append, List.nil_append,
      List.append_nil]

/-- One is-not-None-gated integer assignment appends its tail. -/
theorem step_val_int (pre : List (String × JVal)) (key : String)
    (o : Option Int) (h : key ∉ pre.map Prod.fst) :
    (match o with
     | some n => updAssoc pre key (.jint n)
     | none => pre) = pre ++ valTail key (o.map JVal.jint) := by
  cases o with
  | none => simp [valTail]
  | some n => simp [valTail, updAssoc_of_not_mem pre key _ h]

/-- One is-not-None-gated boolean assignment appends its tail. -/
theorem step_val_bool (pre : List (String × JVal)) (key : String)
    (o : Option Bool) (h : key ∉ pre.map Prod.fst) :
    (match o with
     | some b => updAssoc pre key (.jbool b)
     | none => pre) = pre ++ valTail key (o.map JVal.jbool) := by
  cases o with
  | none => simp [valTail]
  | some b => simp [valTail, updAssoc_of_not_mem pre key _ h]

/-- The always-emitted configuration assignment appends its tail. -/
theorem step_val_cfg (pre : List (String × JVal)) (key : String)
    (o : Option MessageSendConfiguration) (h : key ∉ pre.map Prod.fst) :
    (match o with
     | some c => updAssoc pre key (.jobj c.to_dict)
     | none => pre) = pre ++ valTail key (o.map (fun c => JVal.jobj c.to_dict)) := by
  cases o with
  | none => simp [valTail]
  | some c => simp [valTail, updAssoc_of_not_mem pre key _ h]

/-- The always-emitted params assignment appends its tail. -/
theorem step_val_params (pre : List (String × JVal)) (key : String)
    (o : Option MessageSendParams) (h : key ∉ pre.map Prod.fst) :
    (match o with
     | some p => updAssoc pre key (.jobj p.to_dict)
     | none => pre) = pre ++ valTail key (o.map (fun p => JVal.jobj p.to_dict)) := by
  cases o with
  | none => simp [valTail]
  | some p => simp [valTail, updAssoc_of_not_mem pre key _ h]

/-- The is-not-None-gated error mapping assignment appends its tail. -/
theorem step_val_errobj (pre : List (String × JVal)) (key : String)
    (o : Option (List (String × JVal))) (h : key ∉ pre.map Prod.fst) :
    (match o with
     | some err => updAssoc pre key (.jobj err)
     | none => pre) = pre ++ valTail key (o.map JVal.jobj) := by
  cases o with
  | none => simp [valTail]
  | some err => simp [valTail, updAssoc_of_not_mem pre key _ h]

/-- One is-not-None-gated direct assignment appends its tail. -/
theorem step_val_id (pre : List (String × JVal)) (key : String)
    (o : Option JVal) (h : key ∉ pre.map Prod.fst) :
    (match o with
     | some v => updAssoc pre key v
     | none => pre) = pre ++ valTail key o := by
  cases o with
  | none => simp [valTail]
  | some v => simp [valTail, updAssoc_of_not_mem pre key _ h]

/-- The truthiness-gated method assignment appends its tail. -/
theorem step_mth (pre : List (String × JVal)) (key : String)
    (o : Option JVal) (h : key ∉ pre.map Prod.fst) :
    (match o with
     | some v => if truthy v then updAssoc pre key v else pre
     | none => pre) = pre ++ mthTail key o := by
  cases o with
  | none => simp [mthTail]
  | some v =>
    by_cases ht : truthy v
    · simp [mthTail, ht, updAssoc_of_not_mem pre key _ h]
    · simp [mthTail, ht]

/-- Shape of MessageSendConfiguration.to_dict. -/
theorem config_to_dict_canonical (c : MessageSendConfiguration) :
    c.to_dict = arrTail "acceptedOutputModes" c.accepted_output_modes
      ++ valTail "historyLength" (c.history_length.map JVal.jint)
      ++ objTail "pushNotificationConfig" c.push_notification_config
      ++ valTail "blocking" (c.blocking.map JVal.jbool) := by
  have h2 : "historyLength" ∉ (arrTail "acceptedOutputModes" c.accepted_output_modes).map Prod.fst :=
    not_mem_of_keys_subset _ _ _ (arrTail_keys _ _) (by decide)
  have h3 : "pushNotificationConfig" ∉ ((arrTail "acceptedOutputModes" c.accepted_output_modes
      ++ valTail "historyLength" (c.history_length.map JVal.jint)).map Prod.fst) := by
    simp only [List.map_append, List.mem_append, not_or]
    exact ⟨not_mem_of_keys_subset _ _ _ (arrTail_keys _ _) (by decide),
      not_mem_of_keys_subset _ _ _ (valTail_keys _ _) (by decide)⟩
  have h4 : "blocking" ∉ ((arrTail "acceptedOutputModes" c.accepted_output_modes
      ++ valTail "historyLength" (c.history_length.map JVal.jint)
      ++ objTail "pushNotificationConfig" c.push_notification_config).map Prod.fst) := by
    simp only [List.map_append, List.mem_append, not_or]
    exact ⟨⟨not_mem_of_keys_subset _ _ _ (arrTail_keys _ _) (by decide),
      not_mem_of_keys_subset _ _ _ (valTail_keys _ _) (by decide)⟩,
      not_mem_of_keys_subset _ _ _ (objTail_keys _ _) (by decide)⟩
  unfold MessageSendConfiguration.to_dict
  dsimp only
  rw [step_arr _ _ _ (by simp)]
  simp only [List.nil_append]
  rw [step_val_int _ _ _ h2, step_obj _ _ _ h3, step_val_bool _ _ _ h4]

/-- Round trip for canonical configurations. -/
theorem config_round_trip (c : MessageSendConfiguration) (hc : config_canonical c) :
    MessageSendConfiguration.from_dict (.jobj c.to_dict) = .ok c := by
  obtain ⟨ca, ch, cp, cb⟩ := c
  obtain ⟨ha, hp⟩ := hc
  rw [config_to_dict_canonical ⟨ca, ch, cp, cb⟩]
  cases ca <;> cases ch <;> cases cp <;> cases cb <;>
    simp_all [MessageSendConfiguration.from_dict, arrTail, valTail, objTail, jget,
      jget_append, jgetD, List.cons_append, List.nil_append, List.append_nil]

/-- Shape of MessageSendParams.to_dict. -/
theorem params_to_dict_canonical (p : MessageSendParams) :
    p.to_dict = [("message", JVal.jobj p.message.to_dict)]
      ++ valTail "configuration" (p.configuration.map (fun c => JVal.jobj c.to_dict))
      ++ objTail "metadata" p.metadata := by
  have h2 : "metadata" ∉ (([("message", JVal.jobj p.message.to_dict)]
      ++ valTail "configuration" (p.configuration.map (fun c => JVal.jobj c.to_dict))).map Prod.fst) := by
    simp only [List.map_append, List.mem_append, not_or]
    exact ⟨by simp, not_mem_of_keys_subset _ _ _ (valTail_keys _ _) (by decide)⟩
  unfold MessageSendParams.to_dict
  dsimp only
  rw [step_val_cfg _ _ _ (by simp), step_obj _ _ _ h2]

/-- Round trip for canonical parameters. -/
theorem params_round_trip (p : MessageSendParams) (hc : params_canonical p) :
    MessageSendParams.from_dict (.jobj p.to_dict) = .ok p := by
  obtain ⟨pmsg, pcfg, pmd⟩ := p
  obtain ⟨hm, hcfg, hmd⟩ := hc
  have hmr := msg_round_trip pmsg hm
  rw [params_to_dict_canonical ⟨pmsg, pcfg, pmd⟩]
  cases pcfg with
  | none =>
    cases pmd <;>
      simp_all [MessageSendParams.from_dict, valTail, objTail, jget, jget_append,
        List.cons_append, List.nil_append, List.append_nil]
  | some cfg =>
    have hcr := config_round_trip cfg (hcfg cfg rfl)
    cases pmd <;>
      simp_all [MessageSendParams.from_dict, valTail, objTail, jget, jget_append,
        List.cons_append, List.nil_append, List.append_nil]

/-- The None-conflating read returns a non-null found value unchanged. -/
theorem jgetOptional_eq_some (kvs : List (String × JVal)) (key : String) (v : JVal)
    (h : jget kvs key = some v) (hv : isNull v = false) :
    jgetOptional kvs key = some v := by
  unfold jgetOptional
  rw [h]
  cases v <;> simp_all [isNull]

/-- The None-conflating read misses absent keys. -/
theorem jgetOptional_eq_none (kvs : List (String × JVal)) (key : String)
    (h : jget kvs key = none) : jgetOptional kvs key = none := by
  unfold jgetOptional
  rw [h]

/-- Shape of A2AEnvelope.to_dict. -/
theorem env_to_dict_canonical (e : A2AEnvelope) :
    e.to_dict = [("jsonrpc", JVal.jstr e.jsonrpc)]
      ++ valTail "id" e.id
      ++ mthTail "method" e.method
      ++ valTail "params" (e.params.map (fun p => JVal.jobj p.to_dict))
      ++ valTail "result" e.result
      ++ valTail "error" (e.error.map JVal.jobj) := by
  have h2 : "method" ∉ (([("jsonrpc", JVal.jstr e.jsonrpc)] ++ valTail "id" e.id).map Prod.fst) := by
    simp only [List.map_append, List.mem_append, not_or]
    exact ⟨by simp, not_mem_of_keys_subset _ _ _ (valTail_keys _ _) (by decide)⟩
  have h3 : "params" ∉ (([("jsonrpc", JVal.jstr e.jsonrpc)] ++ valTail "id" e.id
      ++ mthTail "method" e.method).map Prod.fst) := by
    simp only [List.map_append, List.mem_append, not_or]
    exact ⟨⟨by simp, not_mem_of_keys_subset _ _ _ (valTail_keys _ _) (by decide)⟩,
      not_mem_of_keys_subset _ _ _ (mthTail_keys _ _) (by decide)⟩
  have h4 : "result" ∉ (([("jsonrpc", JVal.jstr e.jsonrpc)] ++ valTail "id" e.id
      ++ mthTail "method" e.method
      ++ valTail "params" (e.params.map (fun p => JVal.jobj p.to_dict))).map Prod.fst) := by
    simp only [List.map_append, List.mem_append, not_or]
    exact ⟨⟨⟨by simp, not_mem_of_keys_subset _ _ _ (valTail_keys _ _) (by decide)⟩,
      not_mem_of_keys_subset _ _ _ (mthTail_keys _ _) (by decide)⟩,
      not_mem_of_keys_subset _ _ _ (valTail_keys _ _) (by decide)⟩
  have h5 : "error" ∉ (([("jsonrpc", JVal.jstr e.jsonrpc)] ++ valTail "id" e.id
      ++ mthTail "method" e.method
      ++ valTail "params" (e.params.map (fun p => JVal.jobj p.to_dict))
      ++ valTail "result" e.result).map Prod.fst) := by
    simp only [List.map_append, List.mem_append, not_or]
    exact ⟨⟨⟨⟨by simp, not_mem_of_keys_subset _ _ _ (valTail_keys _ _) (by decide)⟩,
      not_mem_of_keys_subset _ _ _ (mthTail_keys _ _) (by decide)⟩,
      not_mem_of_keys_subset _ _ _ (valTail_keys _ _) (by decide)⟩,
      not_mem_of_keys_subset _ _ _ (valTail_keys _ _) (by decide)⟩
  unfold A2AEnvelope.to_dict
  dsimp only
  rw [step_val_id [("jsonrpc", JVal.jstr e.jsonrpc)] "id" e.id (by simp),
    step_mth _ _ _ h2, step_val_params _ _ _ h3,
    step_val_id _ _ _ h4, step_val_errobj _ _ _ h5]

/-- The None-conflating read walks past a different key. -/
theorem jgetOptional_cons_ne (k key : String) (v : JVal) (rest : List (String × JVal))
    (h : ¬k = key) : jgetOptional ((k, v) :: rest) key = jgetOptional rest key := by
  unfold jgetOptional
  rw [jget_cons_ne _ _ _ _ h]

/-- The None-conflating read returns a non-null head hit unchanged. -/
theorem jgetOptional_cons_eq_notnull (key : String) (v : JVal) (rest : List (String × JVal))
    (hv : isNull v = false) : jgetOptional ((key, v) :: rest) key = some v := by
  unfold jgetOptional
  rw [jget_cons_eq]
  cases v <;> simp_all [isNull]

/-- The None-conflating read misses the empty mapping. -/
theorem jgetOptional_nil (key : String) : jgetOptional [] key = none := rfl

/-- A truthy value is never the null value. -/
theorem isNull_eq_false_of_truthy (v : JVal) (h : truthy v = true) : isNull v = false := by
  cases v <;> simp_all [truthy, isNull]

set_option maxHeartbeats 3200000 in
/-- Round trip for canonical envelopes: every field is reproduced, and the
raw field is replaced by the serialized tree that from_dict stores. -/
theorem env_round_trip (e : A2AEnvelope) (hc : env_canonical e) :
    A2AEnvelope.from_dict (.jobj e.to_dict) = .ok { e with raw := e.to_dict } := by
  obtain ⟨ej, eid, emth, epar, eres, eerr, eraw⟩ := e
  obtain ⟨hj, hid, hmth, hpar, hres⟩ := hc
  subst hj
  rw [env_to_dict_canonical ⟨"2.0", eid, emth, epar, eres, eerr, eraw⟩]
  cases epar with
  | none =>
    cases emth with
    | none =>
      cases eid <;> cases eres <;> cases eerr <;>
        simp_all [A2AEnvelope.from_dict, valTail, mthTail, jget, jget_append,
          jgetOptional_cons_ne, jgetOptional_cons_eq_notnull, jgetOptional_nil,
          List.cons_append, List.nil_append, List.append_nil]
    | some mv =>
      have hmt : truthy mv = true := by simpa using hmth
      have hmv : isNull mv = false := isNull_eq_false_of_truthy mv hmt
      cases eid <;> cases eres <;> cases eerr <;>
        simp_all [A2AEnvelope.from_dict, valTail, mthTail, jget, jget_append,
          jgetOptional_cons_ne, jgetOptional_cons_eq_notnull, jgetOptional_nil,
          List.cons_append, List.nil_append, List.append_nil]
  | some p =>
    have hpr := params_round_trip p (hpar p rfl)
    cases emth with
    | none =>
      cases eid <;> cases eres <;> cases eerr <;>
        simp_all [A2AEnvelope.from_dict, valTail, mthTail, jget, jget_append,
          jgetOptional_cons_ne, jgetOptional_cons_eq_notnull, jgetOptional_nil,
          List.cons_append, List.nil_append, List.append_nil]
    | some mv =>
      have hmt : truthy mv = true := by simpa using hmth
      have hmv : isNull mv = false := isNull_eq_false_of_truthy mv hmt
      cases eid <;> cases eres <;> cases eerr <;>
        simp_all [A2AEnvelope.from_dict, valTail, mthTail, jget, jget_append,
          jgetOptional_cons_ne, jgetOptional_cons_eq_notnull, jgetOptional_nil,
          List.cons_append, List.nil_append, List.append_nil]

/-- C2 counterexample: a Part whose optional metadata is the empty mapping
is constructible through the model constructors, but the round trip does
not reproduce it: the empty mapping is falsy, so to_dict drops it and
from_dict returns a Part with absent metadata. -/
theorem a2a_C2_round_trip_cex :
    A2APart.from_dict (.jobj c2part.to_dict) ≠ .ok c2part := by
  intro h
  have h2 : A2APart.mk "text" [] none = c2part := Except.ok.inj h
  exact Option.noConfusion (congrArg A2APart.metadata h2)

/-- C2 amended: the round trip law from_tree(to_tree(x)) holds on the
canonical subset of each model type: for Parts whose data keys are unique
and avoid the reserved kind and metadata keys and whose optional metadata
is absent or non-empty; for Messages whose parts are non-empty and
canonical, whose messageId is non-empty, and whose optional containers and
emission-gating strings (metadata, extensions, referenceTaskIds, taskId,
contextId) are absent or non-empty; and for Envelopes with version 2.0,
canonical params, a truthy method when present, and no JSON-null id,
method or result, where every field is reproduced except raw, which
from_tree necessarily replaces by the serialized tree itself. -/
theorem a2a_C2_round_trip_amended :
    (∀ p : A2APart, part_canonical p → A2APart.from_dict (.jobj p.to_dict) = .ok p) ∧
    (∀ m : A2AMessage, msg_canonical m → A2AMessage.from_dict (.jobj m.to_dict) = .ok m) ∧
    (∀ e : A2AEnvelope, env_canonical e →
      A2AEnvelope.from_dict (.jobj e.to_dict) = .ok { e with raw := e.to_dict }) :=
  ⟨part_round_trip, msg_round_trip, env_round_trip⟩

/-- C2 witness: the amended round trip at a concrete canonical part,
message and envelope. -/
theorem a2a_C2_round_trip_amended_witness :
    A2APart.from_dict (.jobj c2wpart.to_dict) = .ok c2wpart ∧
    A2AMessage.from_dict (.jobj c2wmsg.to_dict) = .ok c2wmsg ∧
    A2AEnvelope.from_dict (.jobj c2wenv.to_dict) = .ok { c2wenv with raw := c2wenv.to_dict } := by
  have hp : part_canonical c2wpart := ⟨by decide, rfl, rfl, rfl⟩
  have hm : msg_canonical c2wmsg := by
    refine ⟨List.cons_ne_nil _ _, ?_, by decide, rfl, rfl, rfl, rfl, rfl⟩
    intro p hmem
    rw [show c2wmsg.parts = [c2wpart] from rfl, List.mem_singleton] at hmem
    rw [hmem]
    exact hp
  have hparams : ∀ pr, c2wenv.params = some pr → params_canonical pr := by
    intro pr hpr
    have hinj := Option.some.inj hpr
    rw [hinj.symm]
    exact ⟨hm, fun c hc => by rw [show c = { history_length := some 5, blocking := some true }
      from (Option.some.inj hc).symm]; exact ⟨rfl, rfl⟩, rfl⟩
  have he : env_canonical c2wenv := ⟨rfl, rfl, rfl, hparams, rfl⟩
  exact ⟨a2a_C2_round_trip_amended.1 c2wpart hp,
    a2a_C2_round_trip_amended.2.1 c2wmsg hm,
    a2a_C2_round_trip_amended.2.2 c2wenv he⟩
